import Mathlib

/-!
# Relayer processor configuration (packages/relayer/processor/config.go)

Shallow embedding of `NewConfigFromCliContext` and of the two deferred
resource factories it stores in the `Config`, together with the library
functions the constructor calls:

* `encoding/hex.Decode`, `common.Hex2Bytes`, `common.FromHex`,
  `common.HexToAddress`, `Address.SetBytes`, `Address.hex` (go-ethereum, Go
  standard library);
* `crypto.ToECDSA` (go-ethereum) over the secp256k1 parameters;
* `cli.Context.String / Uint64 / Bool` (urfave/cli v2) with
  `strconv.ParseUint`, `strconv.FormatUint`, `strconv.ParseBool`,
  `strconv.FormatBool`;
* `fmt.Errorf` with the `%w` verb.

Go strings and byte slices are sequences of bytes; a byte is a natural
number (values above 255 never occur in a Go string and are treated as
invalid input characters by every function below).  A Go pair `(T, error)`
is a pair of options, so that "nil result" and "nil error" are observable.
Code that may touch the outside world is written in state-passing style
over a world `W`.
-/

namespace Relayer

/-! ## Go strings -/

/-- Go string or byte slice. -/
abbrev GoString := List Nat

/-- UTF-8 bytes of one character of a text literal. -/
def utf8Char (c : Char) : List Nat :=
  let n := c.toNat
  if n < 0x80 then [n]
  else if n < 0x800 then [0xC0 + n / 64, 0x80 + n % 64]
  else if n < 0x10000 then [0xE0 + n / 4096, 0x80 + (n / 64) % 64, 0x80 + n % 64]
  else [0xF0 + n / 262144, 0x80 + (n / 4096) % 64, 0x80 + (n / 64) % 64, 0x80 + n % 64]

/-- Go string denoted by a text literal. -/
def go (s : String) : GoString :=
  (s.toList.map utf8Char).flatten

/-! ## Go errors -/

/-- Go error values: `errors.New` / `fmt.Errorf` without `%w` give an
`errorString`; `fmt.Errorf` with `%w` gives a `wrapError` holding the
formatted message and the wrapped error. -/
inductive GoError where
  | errorString (msg : GoString)
  | wrapError (msg : GoString) (err : GoError)
  deriving DecidableEq, Repr

namespace GoError

/-- Method `Error()`. -/
def Error : GoError → GoString
  | errorString msg => msg
  | wrapError msg _ => msg

/-- Method `Unwrap()`, as used by `errors.Unwrap`. -/
def Unwrap : GoError → Option GoError
  | errorString _ => none
  | wrapError _ err => some err

end GoError

/-- Function `fmt.Errorf(text + "%w", err)` for a text without verbs: the
message is the text followed by the message of `err`, which is kept as the
wrapped error. -/
def Errorf_w (text : GoString) (err : GoError) : GoError :=
  GoError.wrapError (text ++ err.Error) err

/-! ## encoding/hex and go-ethereum common -/

/-- Table `reverseHexTable` of encoding/hex: the value of a hex digit, 0xff otherwise. -/
def reverseHexTable (c : Nat) : Nat :=
  if 48 ≤ c ∧ c ≤ 57 then c - 48
  else if 97 ≤ c ∧ c ≤ 102 then c - 87
  else if 65 ≤ c ∧ c ≤ 70 then c - 55
  else 0xff

/-- Errors of `hex.Decode`. -/
inductive HexError where
  | InvalidByteError (b : Nat)
  | ErrLength
  deriving DecidableEq, Repr

/-- Function `hex.Decode` (with `hex.DecodeString`): the loop reads the
source two bytes at a time, stops at the first byte that is not a hex digit
and reports a dangling last digit; the bytes decoded before the error are
returned together with the error. -/
def hexDecode : List Nat → List Nat × Option HexError
  | [] => ([], none)
  | [p] =>
    if reverseHexTable p > 0x0f then ([], some (HexError.InvalidByteError p))
    else ([], some HexError.ErrLength)
  | p :: q :: rest =>
    let a := reverseHexTable p
    let b := reverseHexTable q
    if a > 0x0f then ([], some (HexError.InvalidByteError p))
    else if b > 0x0f then ([], some (HexError.InvalidByteError q))
    else
      let r := hexDecode rest
      ((a * 16 + b) :: r.1, r.2)

/-- Function `common.Hex2Bytes`: `h, _ := hex.DecodeString(str); return h`. -/
def Hex2Bytes (str : GoString) : List Nat :=
  (hexDecode str).1

/-- Function `has0xPrefix` of go-ethereum common. -/
def has0xPrefix (str : GoString) : Bool :=
  match str with
  | a :: b :: _ => a == 48 && (b == 120 || b == 88)
  | _ => false

/-- Function `common.FromHex`: drop an optional 0x, pad an odd length with a
leading zero digit, then `Hex2Bytes`. -/
def FromHex (s : GoString) : List Nat :=
  let s1 := if has0xPrefix s then s.drop 2 else s
  let s2 := if s1.length % 2 = 1 then 48 :: s1 else s1
  Hex2Bytes s2

/-- Constant `common.AddressLength`. -/
def AddressLength : Nat := 20

/-- Type `common.Address`, a 20 byte array. -/
structure Address where
  bytes : List Nat
  deriving DecidableEq, Repr

/-- Function `common.BytesToAddress` through `Address.SetBytes`: crop from
the left when longer than 20 bytes, then copy right-aligned into a zeroed
array. -/
def BytesToAddress (b : List Nat) : Address :=
  let b1 := if b.length > AddressLength then b.drop (b.length - AddressLength) else b
  { bytes := List.replicate (AddressLength - b1.length) 0 ++ b1 }

/-- Function `common.HexToAddress`. -/
def HexToAddress (s : GoString) : Address :=
  BytesToAddress (FromHex s)

/-- Table `hextable` of encoding/hex, "0123456789abcdef". -/
def hextable (n : Nat) : Nat :=
  if n < 10 then 48 + n else 87 + n

/-- Function `hex.Encode`: two lower-case digits per byte. -/
def hexEncode : List Nat → List Nat
  | [] => []
  | v :: rest => hextable (v / 16) :: hextable (v % 16) :: hexEncode rest

/-- Method `Address.hex`: "0x" followed by the lower-case digits.  The
exported `Address.Hex` differs from it only in the letter case of the
digits a to f (EIP-55 checksum). -/
def Address.hex (a : Address) : GoString :=
  48 :: 120 :: hexEncode a.bytes

/-- Function `lower` applied to every letter: ASCII lower-casing of a text. -/
def toLowerASCII (s : GoString) : GoString :=
  s.map (fun c => if 65 ≤ c ∧ c ≤ 90 then c + 32 else c)

/-! ## secp256k1 and crypto.ToECDSA -/

/-- Field prime of secp256k1. -/
def secp256k1P : Nat :=
  0xFFFFFFFFFFFFFFFFFFFFFFFFFFFFFFFFFFFFFFFFFFFFFFFFFFFFFFFEFFFFFC2F

/-- Group order of secp256k1 (`secp256k1N` in go-ethereum crypto). -/
def secp256k1N : Nat :=
  0xFFFFFFFFFFFFFFFFFFFFFFFFFFFFFFFEBAAEDCE6AF48A03BBFD25E8CD0364141

/-- Base point, x coordinate. -/
def secp256k1Gx : Nat :=
  0x79BE667EF9DCBBAC55A06295CE870B07029BFCDB2DCE28D959F2815B16F81798

/-- Base point, y coordinate. -/
def secp256k1Gy : Nat :=
  0x483ADA7726A3C4655DA4FBFC0E1108A8FD17B448A68554199C47D08FFB10D4B8

/-- Bit size of the curve (`Params().BitSize`). -/
def secp256k1BitSize : Nat := 256

/-- Modular exponentiation by squaring; `fuel` bounds the bit length of the exponent. -/
def powMod (m : Nat) : Nat → Nat → Nat → Nat
  | 0, _, _ => 1 % m
  | fuel + 1, b, e =>
    if e = 0 then 1 % m
    else
      let h := powMod m fuel ((b * b) % m) (e / 2)
      if e % 2 = 1 then (b * h) % m else h

/-- Inverse in the prime field of secp256k1 (Fermat). -/
def invP (a : Nat) : Nat :=
  powMod secp256k1P 256 (a % secp256k1P) (secp256k1P - 2)

/-- Points of the curve y^2 = x^3 + 7 over the prime field, affine or at infinity. -/
inductive CurvePoint where
  | infinity
  | affine (x y : Nat)
  deriving DecidableEq, Repr

namespace CurvePoint

/-- Group law of the curve (chord and tangent). -/
def add : CurvePoint → CurvePoint → CurvePoint
  | infinity, q => q
  | p, infinity => p
  | affine x1 y1, affine x2 y2 =>
    let p := secp256k1P
    if x1 = x2 then
      if (y1 + y2) % p = 0 then infinity
      else
        let l := (3 * x1 * x1 % p) * invP (2 * y1) % p
        let x3 := (l * l + 2 * (p - x1)) % p
        let y3 := (l * (x1 + (p - x3)) + (p - y1)) % p
        affine x3 y3
    else
      let l := ((y2 + (p - y1)) % p) * invP (x2 + (p - x1)) % p
      let x3 := (l * l + (p - x1) + (p - x2)) % p
      let y3 := (l * (x1 + (p - x3)) + (p - y1)) % p
      affine x3 y3

/-- The point k times P in the words of the specification: P added to itself
k times. -/
def smul : Nat → CurvePoint → CurvePoint
  | 0, _ => infinity
  | k + 1, p => add (smul k p) p

/-- Coordinates as big integers; the point at infinity is (0, 0). -/
def toXY : CurvePoint → Nat × Nat
  | infinity => (0, 0)
  | affine x y => (x, y)

end CurvePoint

/-- Base point of secp256k1. -/
def secp256k1G : CurvePoint :=
  CurvePoint.affine secp256k1Gx secp256k1Gy

/-- Scalar multiplication by double-and-add, least significant bit first;
`fuel` bounds the bit length of the scalar. -/
def scalarMult : Nat → Nat → CurvePoint → CurvePoint
  | 0, _, _ => CurvePoint.infinity
  | fuel + 1, k, p =>
    if k = 0 then CurvePoint.infinity
    else
      let h := scalarMult fuel (k / 2) (CurvePoint.add p p)
      if k % 2 = 1 then CurvePoint.add p h else h

/-- Method `big.Int.SetBytes`: the big-endian unsigned value of a byte slice. -/
def SetBytes (b : List Nat) : Nat :=
  b.foldl (fun acc x => acc * 256 + x) 0

/-- Method `S256().ScalarBaseMult`: the scalar multiple of the base point,
for the scalar given in big-endian bytes, computed by double-and-add over 256
bits; the secp256k1 binding reports failure (nil coordinates) when the scalar
is zero or not below the group order. -/
def ScalarBaseMult (k : List Nat) : Option (Nat × Nat) :=
  let s := SetBytes k
  if s = 0 ∨ secp256k1N ≤ s then none
  else some (scalarMult 256 s secp256k1G).toXY

/-- Type `ecdsa.PrivateKey` on the curve S256: secret scalar D and public point (X, Y). -/
structure PrivateKey where
  D : Nat
  X : Nat
  Y : Nat
  deriving DecidableEq, Repr

/-- Function `crypto.ToECDSA`, that is `toECDSA(d, true)`. -/
def ToECDSA (d : List Nat) : Option PrivateKey × Option GoError :=
  if 8 * d.length ≠ secp256k1BitSize then
    (none, some (GoError.errorString (go "invalid length, need 256 bits")))
  else
    let D := SetBytes d
    if D ≥ secp256k1N then
      (none, some (GoError.errorString (go "invalid private key, >=N")))
    else if D = 0 then
      (none, some (GoError.errorString (go "invalid private key, zero or negative")))
    else
      match ScalarBaseMult d with
      | none => (none, some (GoError.errorString (go "invalid private key")))
      | some (x, y) => (some { D := D, X := x, Y := y }, none)

/-! ## strconv -/

/-- Function `lower` of strconv: `c | ('x' - 'X')`. -/
def lower (c : Nat) : Nat := c ||| 32

/-- Outcome of the digit loop of `strconv.ParseUint`. -/
inductive ParseErr where
  | ErrSyntax
  | ErrRange
  deriving DecidableEq, Repr

/-- Digit loop of `strconv.ParseUint`: accumulates `n`, remembers whether an
underscore was seen, fails on a bad digit or on overflow. -/
def parseUintLoop (base0 : Bool) (base cutoff maxVal : Nat) :
    List Nat → Nat → Bool → Except ParseErr (Nat × Bool)
  | [], n, underscores => Except.ok (n, underscores)
  | c :: rest, n, underscores =>
    if c = 95 ∧ base0 = true then parseUintLoop base0 base cutoff maxVal rest n true
    else
      let d? : Option Nat :=
        if 48 ≤ c ∧ c ≤ 57 then some (c - 48)
        else if 97 ≤ lower c ∧ lower c ≤ 122 then some ((lower c - 97 + 10) % 256)
        else none
      match d? with
      | none => Except.error ParseErr.ErrSyntax
      | some d =>
        if d ≥ base then Except.error ParseErr.ErrSyntax
        else if n ≥ cutoff then Except.error ParseErr.ErrRange
        else
          let n0 := (n * base) % 2 ^ 64
          let n1 := (n0 + d) % 2 ^ 64
          if n1 < n0 ∨ n1 > maxVal then Except.error ParseErr.ErrRange
          else parseUintLoop base0 base cutoff maxVal rest n1 underscores

/-- Scan of `strconv.underscoreOK` after the optional sign and base prefix;
`saw` is 48 after a digit, 95 after an underscore, 33 after anything else,
94 at the start. -/
def underscoreScan ( hex : Bool) : List Nat → Nat → Bool
  | [], saw => saw != 95
  | c :: rest, saw =>
    if (48 ≤ c ∧ c ≤ 57) ∨ ( hex = true ∧ 97 ≤ lower c ∧ lower c ≤ 102) then
      underscoreScan hex rest 48
    else if c = 95 then
      if saw ≠ 48 then false else underscoreScan hex rest 95
    else if saw = 95 then false
    else underscoreScan hex rest 33

/-- Function `strconv.underscoreOK`. -/
def underscoreOK (s0 : GoString) : Bool :=
  let s := match s0 with
    | c :: rest => if c = 45 ∨ c = 43 then rest else s0
    | [] => s0
  match s with
  | a :: b :: rest =>
    if a = 48 ∧ (lower b = 98 ∨ lower b = 111 ∨ lower b = 120) then
      underscoreScan (lower b == 120) rest 48
    else underscoreScan false s 94
  | _ => underscoreScan false s 94

/-- Function `strconv.ParseUint(s, 0, 64)`: base taken from the prefix
(0b, 0o, 0x, leading 0 for octal, otherwise decimal).  The value returned
with a range error is the maximum. -/
def ParseUint0_64 (s0 : GoString) : Nat × Option ParseErr :=
  match s0 with
  | [] => (0, some ParseErr.ErrSyntax)
  | c0 :: tl =>
    let bs : Nat × GoString :=
      if c0 = 48 then
        match tl with
        | c1 :: tl2 =>
          if s0.length ≥ 3 ∧ lower c1 = 98 then (2, tl2)
          else if s0.length ≥ 3 ∧ lower c1 = 111 then (8, tl2)
          else if s0.length ≥ 3 ∧ lower c1 = 120 then (16, tl2)
          else (8, tl)
        | [] => (8, tl)
      else (10, s0)
    let base := bs.1
    let cutoff := (2 ^ 64 - 1) / base + 1
    let maxVal := 2 ^ 64 - 1
    match parseUintLoop true base cutoff maxVal bs.2 0 false with
    | Except.error ParseErr.ErrSyntax => (0, some ParseErr.ErrSyntax)
    | Except.error ParseErr.ErrRange => (maxVal, some ParseErr.ErrRange)
    | Except.ok (n, underscores) =>
      if underscores = true ∧ underscoreOK s0 = false then (0, some ParseErr.ErrSyntax)
      else (n, none)

/-- Decimal digits of `n`, most significant first; `fuel` bounds their number. -/
def decimalDigits : Nat → Nat → List Nat
  | 0, _ => []
  | fuel + 1, n =>
    if n < 10 then [48 + n] else decimalDigits fuel (n / 10) ++ [48 + n % 10]

/-- Function `strconv.FormatUint(i, 10)` for a uint64 (at most 20 digits). -/
def FormatUint10 (i : Nat) : GoString :=
  decimalDigits 20 i

/-- Function `strconv.FormatBool`. -/
def FormatBool (b : Bool) : GoString :=
  if b then go "true" else go "false"

/-- Function `strconv.ParseBool`. -/
def ParseBool (str : GoString) : Bool × Option ParseErr :=
  if str = go "1" ∨ str = go "t" ∨ str = go "T" ∨ str = go "true" ∨ str = go "TRUE"
      ∨ str = go "True" then (true, none)
  else if str = go "0" ∨ str = go "f" ∨ str = go "F" ∨ str = go "false" ∨ str = go "FALSE"
      ∨ str = go "False" then (false, none)
  else (false, some ParseErr.ErrSyntax)

/-! ## urfave/cli: the parameter source -/

/-- Value held by a registered flag (`flag.Value`): the string, uint64 and
bool flags of urfave/cli.  The look-ups below use a flag only through its
`String()` method, so `stringValue` also stands for a flag of any other kind
with that textual form.  A uint64 is read modulo 2^64. -/
inductive FlagValue where
  | stringValue (s : GoString)
  | uint64Value (v : Nat)
  | boolValue (b : Bool)
  deriving DecidableEq, Repr

/-- Method `flag.Value.String()`. -/
def FlagValue.String : FlagValue → GoString
  | FlagValue.stringValue s => s
  | FlagValue.uint64Value v => FormatUint10 (v % 2 ^ 64)
  | FlagValue.boolValue b => FormatBool b

/-- Type `cli.Context`, the parameter source: the registered flags by name
(`lookupFlagSet` followed by `FlagSet.Lookup`). -/
structure Context where
  Lookup : GoString → Option FlagValue

namespace Context

/-- Method `cli.Context.String`: the flag value as text, "" when not found. -/
def String (c : Context) (name : GoString) : GoString :=
  match c.Lookup name with
  | some f => f.String
  | none => []

/-- Method `cli.Context.Uint64`: `strconv.ParseUint(f.Value.String(), 0, 64)`,
0 when not found or not parsed. -/
def Uint64 (c : Context) (name : GoString) : Nat :=
  match c.Lookup name with
  | some f =>
    match ParseUint0_64 f.String with
    | (parsed, none) => parsed
    | (_, some _) => 0
  | none => 0

/-- Method `cli.Context.Bool`: `strconv.ParseBool(f.Value.String())`, false
when not found or not parsed. -/
def Bool (c : Context) (name : GoString) : Bool :=
  match c.Lookup name with
  | some f =>
    match ParseBool f.String with
    | (parsed, none) => parsed
    | (_, some _) => false
  | none => false

end Context

/-! ## Package flags: the parameter names

The package `cmd/flags` declares one flag per parameter; only the `Name` of
each declaration is used by the constructor.  The names are those listed in
section 6 of the specification. -/

namespace flags

/-- Modelled from the spec: the declaration `flags.ProcessorPrivateKey` is not part of the source file; its name is the parameter name `processorPrivateKey`. -/
def ProcessorPrivateKey.Name : GoString := go "processorPrivateKey"

/-- Modelled from the spec: the declaration `flags.SrcSignalServiceAddress` is not part of the source file; its name is the parameter name `srcSignalServiceAddress`. -/
def SrcSignalServiceAddress.Name : GoString := go "srcSignalServiceAddress"

/-- Modelled from the spec: the declaration `flags.DestTaikoAddress` is not part of the source file; its name is the parameter name `destTaikoAddress`. -/
def DestTaikoAddress.Name : GoString := go "destTaikoAddress"

/-- Modelled from the spec: the declaration `flags.DestBridgeAddress` is not part of the source file; its name is the parameter name `destBridgeAddress`. -/
def DestBridgeAddress.Name : GoString := go "destBridgeAddress"

/-- Modelled from the spec: the declaration `flags.DestERC721VaultAddress` is not part of the source file; its name is the parameter name `destERC721VaultAddress`. -/
def DestERC721VaultAddress.Name : GoString := go "destERC721VaultAddress"

/-- Modelled from the spec: the declaration `flags.DestERC20VaultAddress` is not part of the source file; its name is the parameter name `destERC20VaultAddress`. -/
def DestERC20VaultAddress.Name : GoString := go "destERC20VaultAddress"

/-- Modelled from the spec: the declaration `flags.DestERC1155VaultAddress` is not part of the source file; its name is the parameter name `destERC1155VaultAddress`. -/
def DestERC1155VaultAddress.Name : GoString := go "destERC1155VaultAddress"

/-- Modelled from the spec: the declaration `flags.DatabaseUsername` is not part of the source file; its name is the parameter name `databaseUsername`. -/
def DatabaseUsername.Name : GoString := go "databaseUsername"

/-- Modelled from the spec: the declaration `flags.DatabasePassword` is not part of the source file; its name is the parameter name `databasePassword`. -/
def DatabasePassword.Name : GoString := go "databasePassword"

/-- Modelled from the spec: the declaration `flags.DatabaseName` is not part of the source file; its name is the parameter name `databaseName`. -/
def DatabaseName.Name : GoString := go "databaseName"

/-- Modelled from the spec: the declaration `flags.DatabaseHost` is not part of the source file; its name is the parameter name `databaseHost`. -/
def DatabaseHost.Name : GoString := go "databaseHost"

/-- Modelled from the spec: the declaration `flags.DatabaseMaxIdleConns` is not part of the source file; its name is the parameter name `databaseMaxIdleConns`. -/
def DatabaseMaxIdleConns.Name : GoString := go "databaseMaxIdleConns"

/-- Modelled from the spec: the declaration `flags.DatabaseMaxOpenConns` is not part of the source file; its name is the parameter name `databaseMaxOpenConns`. -/
def DatabaseMaxOpenConns.Name : GoString := go "databaseMaxOpenConns"

/-- Modelled from the spec: the declaration `flags.DatabaseConnMaxLifetime` is not part of the source file; its name is the parameter name `databaseConnMaxLifetime`. -/
def DatabaseConnMaxLifetime.Name : GoString := go "databaseConnMaxLifetime"

/-- Modelled from the spec: the declaration `flags.QueueUsername` is not part of the source file; its name is the parameter name `queueUsername`. -/
def QueueUsername.Name : GoString := go "queueUsername"

/-- Modelled from the spec: the declaration `flags.QueuePassword` is not part of the source file; its name is the parameter name `queuePassword`. -/
def QueuePassword.Name : GoString := go "queuePassword"

/-- Modelled from the spec: the declaration `flags.QueueHost` is not part of the source file; its name is the parameter name `queueHost`. -/
def QueueHost.Name : GoString := go "queueHost"

/-- Modelled from the spec: the declaration `flags.QueuePort` is not part of the source file; its name is the parameter name `queuePort`. -/
def QueuePort.Name : GoString := go "queuePort"

/-- Modelled from the spec: the declaration `flags.QueuePrefetchCount` is not part of the source file; its name is the parameter name `queuePrefetchCount`. -/
def QueuePrefetchCount.Name : GoString := go "queuePrefetchCount"

/-- Modelled from the spec: the declaration `flags.SrcRPCUrl` is not part of the source file; its name is the parameter name `srcRPCUrl`. -/
def SrcRPCUrl.Name : GoString := go "srcRPCUrl"

/-- Modelled from the spec: the declaration `flags.DestRPCUrl` is not part of the source file; its name is the parameter name `destRPCUrl`. -/
def DestRPCUrl.Name : GoString := go "destRPCUrl"

/-- Modelled from the spec: the declaration `flags.HeaderSyncInterval` is not part of the source file; its name is the parameter name `headerSyncInterval`. -/
def HeaderSyncInterval.Name : GoString := go "headerSyncInterval"

/-- Modelled from the spec: the declaration `flags.Confirmations` is not part of the source file; its name is the parameter name `confirmations`. -/
def Confirmations.Name : GoString := go "confirmations"

/-- Modelled from the spec: the declaration `flags.ConfirmationTimeout` is not part of the source file; its name is the parameter name `confirmationTimeout`. -/
def ConfirmationTimeout.Name : GoString := go "confirmationTimeout"

/-- Modelled from the spec: the declaration `flags.ProfitableOnly` is not part of the source file; its name is the parameter name `profitableOnly`. -/
def ProfitableOnly.Name : GoString := go "profitableOnly"

/-- Modelled from the spec: the declaration `flags.BackOffRetryInterval` is not part of the source file; its name is the parameter name `backOffRetryInterval`. -/
def BackOffRetryInterval.Name : GoString := go "backOffRetryInterval"

/-- Modelled from the spec: the declaration `flags.BackOffMaxRetrys` is not part of the source file; its name is the parameter name `backOffMaxRetrys`. -/
def BackOffMaxRetrys.Name : GoString := go "backOffMaxRetrys"

/-- Modelled from the spec: the declaration `flags.ETHClientTimeout` is not part of the source file; its name is the parameter name `ethClientTimeout`. -/
def ETHClientTimeout.Name : GoString := go "ethClientTimeout"

end flags

/-! ## Collaborators: database and queue packages -/

/-- Type `db.DBConnectionOpts`; `OpenFunc` opens the store for a DSN. -/
structure DBConnectionOpts (W DBH : Type) where
  Name : GoString
  Password : GoString
  Database : GoString
  Host : GoString
  MaxIdleConns : Nat
  MaxOpenConns : Nat
  MaxConnLifetime : Nat
  OpenFunc : GoString → W → (Option DBH × Option GoError) × W

/-- Type `queue.NewQueueOpts`. -/
structure NewQueueOpts where
  Username : GoString
  Password : GoString
  Host : GoString
  Port : GoString
  PrefetchCount : Nat
  deriving DecidableEq, Repr

/-- Functions of other packages called by the two factories, taken as
parameters: `gorm.Open(mysql.Open(dsn), cfg)` with the silent logger,
`db.New`, `db.OpenDBConnection` and `rabbitmq.NewQueue`.  Each may read and
change the world `W` (network, database). -/
structure Collaborators (W G DBH Q : Type) where
  gormOpen : GoString → W → (Option G × Option GoError) × W
  dbNew : Option G → Option DBH
  OpenDBConnection : DBConnectionOpts W DBH → W → (Option DBH × Option GoError) × W
  NewQueue : NewQueueOpts → W → (Option Q × Option GoError) × W

/-! ## Config and its constructor -/

/-- Type `Config` of package processor. -/
structure Config (W DBH Q : Type) where
  SrcSignalServiceAddress : Address
  DestBridgeAddress : Address
  DestERC721VaultAddress : Address
  DestERC20VaultAddress : Address
  DestERC1155VaultAddress : Address
  DestTaikoAddress : Address
  ProcessorPrivateKey : Option PrivateKey
  HeaderSyncInterval : Nat
  Confirmations : Nat
  ConfirmationsTimeout : Nat
  ProfitableOnly : Bool
  BackoffRetryInterval : Nat
  BackOffMaxRetrys : Nat
  DatabaseUsername : GoString
  DatabasePassword : GoString
  DatabaseName : GoString
  DatabaseHost : GoString
  DatabaseMaxIdleConns : Nat
  DatabaseMaxOpenConns : Nat
  DatabaseMaxConnLifetime : Nat
  QueueUsername : GoString
  QueuePassword : GoString
  QueueHost : GoString
  QueuePort : Nat
  QueuePrefetch : Nat
  SrcRPCUrl : GoString
  DestRPCUrl : GoString
  ETHClientTimeout : Nat
  OpenQueueFunc : W → (Option Q × Option GoError) × W
  OpenDBFunc : W → (Option DBH × Option GoError) × W

section Constructor

variable {W G DBH Q : Type}

/-- Closure passed as `OpenFunc` (config.go lines 110-119): open through
gorm, hand the error back, otherwise wrap the handle with `db.New`. -/
def openFunc (x : Collaborators W G DBH Q) (dsn : GoString) :
    W → (Option DBH × Option GoError) × W :=
  fun w =>
    match x.gormOpen dsn w with
    | ((_, some err), w1) => ((none, some err), w1)
    | ((gormDB, none), w1) => ((x.dbNew gormDB, none), w1)

/-- Function `NewConfigFromCliContext` (config.go lines 64-139). -/
def NewConfigFromCliContext (x : Collaborators W G DBH Q) (c : Context) :
    W → (Option (Config W DBH Q) × Option GoError) × W :=
  fun w =>
    match ToECDSA (Hex2Bytes (c.String flags.ProcessorPrivateKey.Name)) with
    | (_, some err) =>
      ((none, some (Errorf_w (go "invalid processorPrivateKey: ") err)), w)
    | (processorPrivateKey, none) =>
      ((some {
          ProcessorPrivateKey := processorPrivateKey
          SrcSignalServiceAddress := HexToAddress (c.String flags.SrcSignalServiceAddress.Name)
          DestTaikoAddress := HexToAddress (c.String flags.DestTaikoAddress.Name)
          DestBridgeAddress := HexToAddress (c.String flags.DestBridgeAddress.Name)
          DestERC721VaultAddress := HexToAddress (c.String flags.DestERC721VaultAddress.Name)
          DestERC20VaultAddress := HexToAddress (c.String flags.DestERC20VaultAddress.Name)
          DestERC1155VaultAddress := HexToAddress (c.String flags.DestERC1155VaultAddress.Name)
          DatabaseUsername := c.String flags.DatabaseUsername.Name
          DatabasePassword := c.String flags.DatabasePassword.Name
          DatabaseName := c.String flags.DatabaseName.Name
          DatabaseHost := c.String flags.DatabaseHost.Name
          DatabaseMaxIdleConns := c.Uint64 flags.DatabaseMaxIdleConns.Name
          DatabaseMaxOpenConns := c.Uint64 flags.DatabaseMaxOpenConns.Name
          DatabaseMaxConnLifetime := c.Uint64 flags.DatabaseConnMaxLifetime.Name
          QueueUsername := c.String flags.QueueUsername.Name
          QueuePassword := c.String flags.QueuePassword.Name
          QueuePort := c.Uint64 flags.QueuePort.Name
          QueueHost := c.String flags.QueueHost.Name
          QueuePrefetch := c.Uint64 flags.QueuePrefetchCount.Name
          SrcRPCUrl := c.String flags.SrcRPCUrl.Name
          DestRPCUrl := c.String flags.DestRPCUrl.Name
          HeaderSyncInterval := c.Uint64 flags.HeaderSyncInterval.Name
          Confirmations := c.Uint64 flags.Confirmations.Name
          ConfirmationsTimeout := c.Uint64 flags.ConfirmationTimeout.Name
          ProfitableOnly := c.Bool flags.ProfitableOnly.Name
          BackoffRetryInterval := c.Uint64 flags.BackOffRetryInterval.Name
          BackOffMaxRetrys := c.Uint64 flags.BackOffMaxRetrys.Name
          ETHClientTimeout := c.Uint64 flags.ETHClientTimeout.Name
          OpenDBFunc := fun w1 =>
            x.OpenDBConnection {
              Name := c.String flags.DatabaseUsername.Name
              Password := c.String flags.DatabasePassword.Name
              Database := c.String flags.DatabaseName.Name
              Host := c.String flags.DatabaseHost.Name
              MaxIdleConns := c.Uint64 flags.DatabaseMaxIdleConns.Name
              MaxOpenConns := c.Uint64 flags.DatabaseMaxOpenConns.Name
              MaxConnLifetime := c.Uint64 flags.DatabaseConnMaxLifetime.Name
              OpenFunc := openFunc x } w1
          OpenQueueFunc := fun w1 =>
            let opts : NewQueueOpts := {
              Username := c.String flags.QueueUsername.Name
              Password := c.String flags.QueuePassword.Name
              Host := c.String flags.QueueHost.Name
              Port := c.String flags.QueuePort.Name
              PrefetchCount := c.Uint64 flags.QueuePrefetchCount.Name }
            match x.NewQueue opts w1 with
            | ((_, some err), w2) => ((none, some err), w2)
            | ((q, none), w2) => ((q, none), w2) },
        none), w)

end Constructor

/-! ## Vocabulary of the specification -/

/-- Hex digit: 0-9, a-f or A-F. -/
def isHexDigit (c : Nat) : Bool :=
  (decide (48 ≤ c) && decide (c ≤ 57)) || (decide (97 ≤ c) && decide (c ≤ 102))
    || (decide (65 ≤ c) && decide (c ≤ 70))

/-- Value of a hex digit. -/
def hexDigitValue (c : Nat) : Nat :=
  if c ≤ 57 then c - 48 else if c ≤ 70 then c - 55 else c - 87

/-- Key text that is malformed hex in the words of the specification: odd
length, a character that is not a hex digit, or a digit count other than the
64 that encode 32 bytes. -/
def malformedKeyHex (s : GoString) : Bool :=
  decide (s.length % 2 = 1) || s.any (fun ch => !isHexDigit ch) || decide (s.length ≠ 64)

/-- Address text of the required form in the words of the specification: 40
hex digits, optionally 0x-prefixed. -/
def wellFormedAddressText (s : GoString) : Bool :=
  (decide (s.length = 40) && s.all isHexDigit)
    || (decide (s.length = 42) && has0xPrefix s && (s.drop 2).all isHexDigit)

/-- Address text made of a 0x prefix and 40 hex digits. -/
def prefixedAddressText (s : GoString) : Bool :=
  decide (s.length = 42) && has0xPrefix s && (s.drop 2).all isHexDigit

/-- Leading complete pairs of hex digits of a text: reading stops at the
first character that is not a hex digit or at a dangling last digit. -/
def leadingHexPairs : List Nat → List (Nat × Nat)
  | p :: q :: rest =>
    if isHexDigit p && isHexDigit q then (p, q) :: leadingHexPairs rest else []
  | _ => []

/-- Lenient hex decoding in the words of the specification: the bytes of the
leading complete pairs of hex digits, anything after them being ignored. -/
def lenientHexDecode (s : GoString) : List Nat :=
  (leadingHexPairs s).map (fun pq => 16 * hexDigitValue pq.1 + hexDigitValue pq.2)

/-- Big-endian value of a byte sequence: the byte at distance `i` from the end
weighs 256 to the power `i`. -/
def bigEndianValue : List Nat → Nat
  | [] => 0
  | b :: rest => b * 256 ^ rest.length + bigEndianValue rest

/-- The curve secp256k1, y^2 = x^3 + 7, over the integers modulo the field
prime, as a Weierstrass curve; its points form the group in which "D times
the base point" is taken. -/
def secp256k1Curve : WeierstrassCurve (ZMod secp256k1P) :=
  { a₁ := 0, a₂ := 0, a₃ := 0, a₄ := 0, a₆ := 7 }

/-- A point of the executable model stands for a point of the curve: same
kind, coordinates below the field prime and equal modulo it. -/
def Represents (p : CurvePoint) (q : secp256k1Curve.toAffine.Point) : Prop :=
  match p, q with
  | CurvePoint.infinity, WeierstrassCurve.Affine.Point.zero => True
  | CurvePoint.affine x y, @WeierstrassCurve.Affine.Point.some _ _ _ x1 y1 _ =>
    x < secp256k1P ∧ y < secp256k1P ∧ (x : ZMod secp256k1P) = x1 ∧ (y : ZMod secp256k1P) = y1
  | _, _ => False

/-- Signing key accepted: exactly 32 bytes that encode a scalar in 1 .. N-1. -/
def keyAccepted (d : List Nat) : Prop :=
  d.length = 32 ∧ SetBytes d ≠ 0 ∧ SetBytes d < secp256k1N

/-- Acceptance of a key is decidable. -/
instance keyAccepted.decidable (d : List Nat) : Decidable (keyAccepted d) := by
  unfold keyAccepted
  infer_instance

/-- Names of the database and queue parameters. -/
def resourceParameterNames : List GoString :=
  [flags.DatabaseUsername.Name, flags.DatabasePassword.Name, flags.DatabaseName.Name,
   flags.DatabaseHost.Name, flags.DatabaseMaxIdleConns.Name, flags.DatabaseMaxOpenConns.Name,
   flags.DatabaseConnMaxLifetime.Name, flags.QueueUsername.Name, flags.QueuePassword.Name,
   flags.QueueHost.Name, flags.QueuePort.Name, flags.QueuePrefetchCount.Name]

/-! ## Sample inputs -/

/-- Parameter source holding the listed flags. -/
def contextOf (fs : List (GoString × FlagValue)) : Context :=
  { Lookup := fun name => fs.lookup name }

/-- Key text of 64 hex digits denoting the scalar 1. -/
def keyOne : GoString :=
  go "0000000000000000000000000000000000000000000000000000000000000001"

/-- Flags of a sample run: `key` as signing key text, `addr` as source
signal service address, `dbHost` as database host. -/
def sampleFlags (key addr dbHost : GoString) : List (GoString × FlagValue) :=
  [(flags.ProcessorPrivateKey.Name, FlagValue.stringValue key),
   (flags.SrcSignalServiceAddress.Name, FlagValue.stringValue addr),
   (flags.DestTaikoAddress.Name,
      FlagValue.stringValue (go "0x1000777700000000000000000000000000000001")),
   (flags.DestBridgeAddress.Name,
      FlagValue.stringValue (go "0x1000777700000000000000000000000000000002")),
   (flags.DestERC721VaultAddress.Name,
      FlagValue.stringValue (go "0X1000777700000000000000000000000000000003")),
   (flags.DestERC20VaultAddress.Name,
      FlagValue.stringValue (go "0x100077770000000000000000000000000000ABCD")),
   (flags.DestERC1155VaultAddress.Name,
      FlagValue.stringValue (go "0x100077770000000000000000000000000000abCd")),
   (flags.DatabaseUsername.Name, FlagValue.stringValue (go "u")),
   (flags.DatabasePassword.Name, FlagValue.stringValue (go "p")),
   (flags.DatabaseName.Name, FlagValue.stringValue (go "relayer")),
   (flags.DatabaseHost.Name, FlagValue.stringValue dbHost),
   (flags.DatabaseMaxIdleConns.Name, FlagValue.uint64Value 50),
   (flags.DatabaseMaxOpenConns.Name, FlagValue.uint64Value 200),
   (flags.DatabaseConnMaxLifetime.Name, FlagValue.uint64Value 3600),
   (flags.QueueUsername.Name, FlagValue.stringValue (go "guest")),
   (flags.QueuePassword.Name, FlagValue.stringValue (go "secret")),
   (flags.QueueHost.Name, FlagValue.stringValue (go "mq")),
   (flags.QueuePort.Name, FlagValue.uint64Value 5672),
   (flags.QueuePrefetchCount.Name, FlagValue.uint64Value 10),
   (flags.SrcRPCUrl.Name, FlagValue.stringValue (go "ws://l1:8546")),
   (flags.DestRPCUrl.Name, FlagValue.stringValue (go "ws://l2:8546")),
   (flags.HeaderSyncInterval.Name, FlagValue.uint64Value 2),
   (flags.Confirmations.Name, FlagValue.uint64Value 3),
   (flags.ConfirmationTimeout.Name, FlagValue.uint64Value 360),
   (flags.ProfitableOnly.Name, FlagValue.boolValue true),
   (flags.BackOffRetryInterval.Name, FlagValue.uint64Value 12),
   (flags.BackOffMaxRetrys.Name, FlagValue.uint64Value 5),
   (flags.ETHClientTimeout.Name, FlagValue.uint64Value 30)]

/-- Sample parameter source. -/
def sampleContext (key addr dbHost : GoString) : Context :=
  contextOf (sampleFlags key addr dbHost)

/-- Well-formed sample address text. -/
def sampleAddress : GoString :=
  go "0xDeaDbeefdEAdbeefdEadbEEFdeadbeEFdEaDbeeF"

/-- Collaborators of a test set-up whose world is the log of the calls made:
every opener records its argument and reports an unreachable host. -/
def logging : Collaborators (List GoString) Unit Unit Unit :=
  { gormOpen := fun dsn w =>
      ((none, some (GoError.errorString (go "dial tcp: no route to host"))), w ++ [dsn])
    dbNew := fun _ => some ()
    OpenDBConnection := fun opts w =>
      ((none, some (GoError.errorString (go "dial tcp: no route to host"))),
        w ++ [opts.Host])
    NewQueue := fun opts w =>
      ((none, some (GoError.errorString (go "dial tcp: no route to host"))),
        w ++ [opts.Host ++ go ":" ++ opts.Port]) }

/-- Parameter source `c` with the flag `name` replaced by `v`. -/
def Context.set (c : Context) (name : GoString) (v : FlagValue) : Context :=
  { Lookup := fun n => if n = name then some v else c.Lookup n }

/-- Sample parameter source with a well-formed key and well-formed addresses. -/
def goodContext : Context :=
  sampleContext keyOne sampleAddress (go "db:3306")

/-- Config built from `goodContext` by the logging collaborators, starting
from an empty call log. -/
def goodConfig : Config (List GoString) Unit Unit :=
  (NewConfigFromCliContext logging goodContext []).1.1.get (by decide)

/-- Key text of a published secp256k1 key pair. -/
def pairKey : GoString :=
  go "18E14A7B6A307F426A94F8114701E7C8E774E7F9A47E2C2035DB29A206321725"

/-- Sample parameter source with the key text `pairKey`. -/
def pairContext : Context :=
  sampleContext pairKey sampleAddress (go "db:3306")

/-- Config built from `pairContext` by the logging collaborators, starting
from an empty call log. -/
def pairConfig : Config (List GoString) Unit Unit :=
  (NewConfigFromCliContext logging pairContext []).1.1.get (by decide!)

/-! ## Lemmas on the signing key parser -/

theorem ToECDSA_accepted (d : List Nat) (h : keyAccepted d) :
    ToECDSA d =
      (some { D := SetBytes d
              X := (scalarMult 256 (SetBytes d) secp256k1G).toXY.1
              Y := (scalarMult 256 (SetBytes d) secp256k1G).toXY.2 }, none) := by
  obtain ⟨h32, h0, hN⟩ := h
  have hlen : ¬ (8 * d.length ≠ secp256k1BitSize) := by
    simp [secp256k1BitSize, h32]
  have hge : ¬ (SetBytes d ≥ secp256k1N) := Nat.not_le.mpr hN
  have hsb : ScalarBaseMult d = some (scalarMult 256 (SetBytes d) secp256k1G).toXY := by
    unfold ScalarBaseMult
    have : ¬ (SetBytes d = 0 ∨ secp256k1N ≤ SetBytes d) := by
      rintro (h1 | h1)
      · exact h0 h1
      · exact hge h1
    simp only [this, if_false]
  unfold ToECDSA
  rw [if_neg hlen]
  simp only [if_neg hge, if_neg h0, hsb]

theorem ToECDSA_rejected (d : List Nat) (h : ¬ keyAccepted d) :
    ∃ e, ToECDSA d = (none, some (GoError.errorString e)) := by
  unfold ToECDSA
  by_cases hlen : 8 * d.length ≠ secp256k1BitSize
  · exact ⟨_, by rw [if_pos hlen]⟩
  · rw [if_neg hlen]
    by_cases hge : SetBytes d ≥ secp256k1N
    · exact ⟨go "invalid private key, >=N", by simp only [if_pos hge]⟩
    · by_cases h0 : SetBytes d = 0
      · exact ⟨go "invalid private key, zero or negative", by simp only [if_neg hge, if_pos h0]⟩
      · exfalso
        apply h
        refine ⟨?_, h0, Nat.not_le.mp hge⟩
        simp only [secp256k1BitSize, ne_eq, not_not] at hlen
        omega

theorem ToECDSA_short (d : List Nat) (h : d.length ≠ 32) :
    ToECDSA d = (none, some (GoError.errorString (go "invalid length, need 256 bits"))) := by
  unfold ToECDSA
  have hlen : 8 * d.length ≠ secp256k1BitSize := by
    simp only [secp256k1BitSize, ne_eq]; omega
  rw [if_pos hlen]

section ConstructorLemmas

variable {W G DBH Q : Type}

/-- Config literal of the constructor for an accepted key. -/
theorem NewConfig_of_key (x : Collaborators W G DBH Q) (c : Context) (w : W)
    (k : Option PrivateKey)
    (h : ToECDSA (Hex2Bytes (c.String flags.ProcessorPrivateKey.Name)) = (k, none)) :
    ∃ cfg : Config W DBH Q,
      NewConfigFromCliContext x c w = ((some cfg, none), w) ∧
      cfg.ProcessorPrivateKey = k := by
  unfold NewConfigFromCliContext
  simp only [h]
  exact ⟨_, rfl, rfl⟩

theorem NewConfig_of_error (x : Collaborators W G DBH Q) (c : Context) (w : W)
    (k : Option PrivateKey) (err : GoError)
    (h : ToECDSA (Hex2Bytes (c.String flags.ProcessorPrivateKey.Name)) = (k, some err)) :
    NewConfigFromCliContext x c w =
      ((none, some (Errorf_w (go "invalid processorPrivateKey: ") err)), w) := by
  unfold NewConfigFromCliContext
  simp only [h]


end ConstructorLemmas

/-! ## Lemmas on hex decoding -/

theorem isHexDigit_iff (c : Nat) :
    isHexDigit c = true ↔ (48 ≤ c ∧ c ≤ 57) ∨ (97 ≤ c ∧ c ≤ 102) ∨ (65 ≤ c ∧ c ≤ 70) := by
  simp [isHexDigit, or_assoc]

theorem reverseHexTable_of_hex {c : Nat} (h : isHexDigit c = true) :
    reverseHexTable c = hexDigitValue c ∧ hexDigitValue c < 16 := by
  rw [isHexDigit_iff] at h
  unfold reverseHexTable hexDigitValue
  rcases h with h | h | h
  · rw [if_pos h, if_pos h.2]; omega
  · rw [if_neg (by omega), if_pos h, if_neg (by omega), if_neg (by omega)]; omega
  · rw [if_neg (by omega), if_neg (by omega), if_pos h, if_neg (by omega), if_pos h.2]; omega

theorem reverseHexTable_of_not_hex {c : Nat} (h : isHexDigit c = false) :
    reverseHexTable c > 0x0f := by
  have h1 : ¬ ((48 ≤ c ∧ c ≤ 57) ∨ (97 ≤ c ∧ c ≤ 102) ∨ (65 ≤ c ∧ c ≤ 70)) := by
    rw [← isHexDigit_iff, h]; simp
  unfold reverseHexTable
  rw [if_neg (fun h2 => h1 (Or.inl h2)), if_neg (fun h2 => h1 (Or.inr (Or.inl h2))),
    if_neg (fun h2 => h1 (Or.inr (Or.inr h2)))]
  decide

theorem reverseHexTable_le_iff (c : Nat) : reverseHexTable c > 0x0f ↔ isHexDigit c = false := by
  constructor
  · intro h
    by_contra h1
    have h2 : isHexDigit c = true := by simpa using h1
    have := reverseHexTable_of_hex h2
    omega
  · exact reverseHexTable_of_not_hex

/-- The library decoder returns the lenient decoding of the specification. -/
theorem Hex2Bytes_eq_lenient : ∀ s : GoString, Hex2Bytes s = lenientHexDecode s
  | [] => rfl
  | [p] => by
    unfold Hex2Bytes hexDecode lenientHexDecode leadingHexPairs
    split <;> rfl
  | p :: q :: rest => by
    have ih := Hex2Bytes_eq_lenient rest
    unfold Hex2Bytes at ih ⊢
    unfold lenientHexDecode at ih ⊢
    unfold hexDecode leadingHexPairs
    by_cases hp : isHexDigit p = true
    · by_cases hq : isHexDigit q = true
      · have h1 := reverseHexTable_of_hex hp
        have h2 := reverseHexTable_of_hex hq
        have h3 : ¬ reverseHexTable p > 0x0f := by omega
        have h4 : ¬ reverseHexTable q > 0x0f := by omega
        simp only [h3, h4, if_false, hp, hq, Bool.and_self, if_true, List.map_cons, ih]
        rw [h1.1, h2.1, Nat.mul_comm]
      · have hq2 : isHexDigit q = false := by simpa using hq
        have h1 := reverseHexTable_of_hex hp
        have h3 : ¬ reverseHexTable p > 0x0f := by omega
        have h4 := reverseHexTable_of_not_hex hq2
        simp [h3, h4, hp, hq2]
    · have hp2 : isHexDigit p = false := by simpa using hp
      have h3 := reverseHexTable_of_not_hex hp2
      simp [h3, hp2]

theorem leadingHexPairs_length_le : ∀ s : GoString, 2 * (leadingHexPairs s).length ≤ s.length
  | [] => by simp [leadingHexPairs]
  | [p] => by simp [leadingHexPairs]
  | p :: q :: rest => by
    have ih := leadingHexPairs_length_le rest
    unfold leadingHexPairs
    split
    · simp only [List.length_cons]; omega
    · simp

theorem leadingHexPairs_length_lt (k : Nat) :
    ∀ s : GoString, (∃ ch ∈ s.take (2 * k), isHexDigit ch = false) →
      (leadingHexPairs s).length < k := by
  induction k with
  | zero => intro s h; simp at h
  | succ k ih =>
    intro s h
    match s, h with
    | [], h => simp [leadingHexPairs]
    | [p], h => simp [leadingHexPairs]
    | p :: q :: rest, h =>
      unfold leadingHexPairs
      split
      · rename_i hpq
        simp only [Bool.and_eq_true] at hpq
        have : 2 * (k + 1) = (2 * k + 1) + 1 := by ring
        rw [this, List.take_succ_cons, List.take_succ_cons] at h
        obtain ⟨ch, hmem, hch⟩ := h
        simp only [List.mem_cons] at hmem
        rcases hmem with rfl | rfl | hmem
        · rw [hpq.1] at hch; cases hch
        · rw [hpq.2] at hch; cases hch
        · have := ih rest ⟨ch, hmem, hch⟩
          simp only [List.length_cons]; omega
      · simp

theorem leadingHexPairs_length_ge (k : Nat) :
    ∀ s : GoString, 2 * k ≤ s.length → (∀ ch ∈ s.take (2 * k), isHexDigit ch = true) →
      k ≤ (leadingHexPairs s).length := by
  induction k with
  | zero => intro s _ _; exact Nat.zero_le _
  | succ k ih =>
    intro s hl h
    match s, hl, h with
    | [], hl, h => simp at hl
    | [p], hl, h => simp at hl; omega
    | p :: q :: rest, hl, h =>
      have e : 2 * (k + 1) = (2 * k + 1) + 1 := by ring
      rw [e, List.take_succ_cons, List.take_succ_cons] at h
      have hp := h p (by simp)
      have hq := h q (by simp)
      unfold leadingHexPairs
      simp only [hp, hq, Bool.and_self, if_true, List.length_cons]
      have := ih rest (by simp only [List.length_cons] at hl; omega)
        (fun ch hch => h ch (by simp [hch]))
      omega

theorem Hex2Bytes_length (s : GoString) : (Hex2Bytes s).length = (leadingHexPairs s).length := by
  rw [Hex2Bytes_eq_lenient, lenientHexDecode, List.length_map]

/-! ## Lemmas on addresses -/

theorem hextable_hexDigitValue {c : Nat} (h : isHexDigit c = true) :
    hextable (hexDigitValue c) = if 65 ≤ c ∧ c ≤ 90 then c + 32 else c := by
  rw [isHexDigit_iff] at h
  unfold hextable hexDigitValue
  rcases h with h | h | h <;> split_ifs <;> omega

theorem hexEncode_Hex2Bytes :
    ∀ t : GoString, t.all isHexDigit = true → t.length % 2 = 0 →
      hexEncode (Hex2Bytes t) = toLowerASCII t ∧ 2 * (Hex2Bytes t).length = t.length
  | [], _, _ => by simp [Hex2Bytes, hexDecode, hexEncode, toLowerASCII]
  | [p], _, hl => by simp at hl
  | p :: q :: rest, hall, hl => by
    simp only [List.all_cons, Bool.and_eq_true] at hall
    obtain ⟨hp, hq, hrest⟩ := hall
    have ih := hexEncode_Hex2Bytes rest hrest (by simp only [List.length_cons] at hl; omega)
    have h1 := reverseHexTable_of_hex hp
    have h2 := reverseHexTable_of_hex hq
    have h3 : ¬ reverseHexTable p > 0x0f := by omega
    have h4 : ¬ reverseHexTable q > 0x0f := by omega
    unfold Hex2Bytes at ih ⊢
    unfold hexDecode
    simp only [h3, h4, if_false, hexEncode, List.length_cons]
    have e1 : (reverseHexTable p * 16 + reverseHexTable q) / 16 = hexDigitValue p := by omega
    have e2 : (reverseHexTable p * 16 + reverseHexTable q) % 16 = hexDigitValue q := by omega
    rw [e1, e2, hextable_hexDigitValue hp, hextable_hexDigitValue hq, ih.1]
    refine ⟨?_, by omega⟩
    simp [toLowerASCII]

theorem BytesToAddress_length (b : List Nat) : (BytesToAddress b).bytes.length = 20 := by
  unfold BytesToAddress AddressLength
  by_cases h : b.length > 20
  · simp only [h, if_true, List.length_append, List.length_replicate, List.length_drop]; omega
  · simp only [h, if_false, List.length_append, List.length_replicate]; omega

theorem BytesToAddress_long (b : List Nat) (h : 20 ≤ b.length) :
    (BytesToAddress b).bytes = b.drop (b.length - 20) := by
  unfold BytesToAddress AddressLength
  by_cases h1 : b.length > 20
  · simp only [h1, if_true, List.length_drop]
    have : 20 - (b.length - (b.length - 20)) = 0 := by omega
    rw [this]; simp
  · have : b.length = 20 := by omega
    simp [this]

theorem BytesToAddress_short (b : List Nat) (h : b.length < 20) :
    (BytesToAddress b).bytes = List.replicate (20 - b.length) 0 ++ b := by
  unfold BytesToAddress AddressLength
  have : ¬ b.length > 20 := by omega
  simp only [this, if_false]

theorem HexToAddress_roundtrip (s : GoString) (h : prefixedAddressText s = true) :
    (HexToAddress s).hex = toLowerASCII s := by
  unfold prefixedAddressText at h
  simp only [Bool.and_eq_true, decide_eq_true_eq] at h
  obtain ⟨⟨hlen, hpre⟩, hall⟩ := h
  match s, hlen, hpre, hall with
  | a :: b :: t, hlen, hpre, hall =>
    simp only [List.drop_succ_cons, List.drop_zero] at hall
    simp only [List.length_cons] at hlen
    have ht : t.length = 40 := by omega
    have hrt := hexEncode_Hex2Bytes t hall (by omega)
    have hfrom : FromHex (a :: b :: t) = Hex2Bytes t := by
      unfold FromHex
      simp only [hpre, if_true, List.drop_succ_cons, List.drop_zero]
      rw [if_neg (by omega)]
    have hb : (BytesToAddress (Hex2Bytes t)).bytes = Hex2Bytes t := by
      rw [BytesToAddress_long _ (by omega)]
      have : (Hex2Bytes t).length - 20 = 0 := by omega
      rw [this]; rfl
    unfold HexToAddress Address.hex
    rw [hfrom, hb, hrt.1]
    simp only [has0xPrefix, Bool.and_eq_true, beq_iff_eq, Bool.or_eq_true] at hpre
    obtain ⟨rfl, rfl | rfl⟩ := hpre <;> simp [toLowerASCII]

/-! ## Lemmas on strconv -/

set_option maxRecDepth 100000 in
/-- Doubling the base point gives the published point 2G of secp256k1. -/
theorem smul_two_base :
    CurvePoint.smul 2 secp256k1G =
      CurvePoint.affine
        0xC6047F9441ED7D6D3045406E95C07CD85C778E4B8CEF3CA7ABAC09B95C709EE5
        0x1AE168FEA63DC339A3C58419466CEAEEF7F632653266D0E1236431A950CFE52A := by
  decide

/-! ## Primality of the field prime and of the group order -/

/-- The exponentiation by squaring computes the power modulo `m`, given fuel
for every bit of the exponent. -/
theorem powMod_eq (m : Nat) : ∀ (fuel b e : Nat), e < 2 ^ fuel → powMod m fuel b e = b ^ e % m
  | 0, b, e, h => by
    have : e = 0 := by simpa using h
    subst this
    simp [powMod]
  | fuel + 1, b, e, h => by
    unfold powMod
    by_cases he : e = 0
    · subst he; simp
    · rw [if_neg he]
      have hlt : e / 2 < 2 ^ fuel := by
        rw [Nat.div_lt_iff_lt_mul (by norm_num)]
        rw [pow_succ] at h
        exact h
      simp only
      rw [powMod_eq m fuel _ _ hlt, ← Nat.pow_mod]
      have hsq : (b * b) ^ (e / 2) = b ^ (2 * (e / 2)) := by
        rw [pow_mul, pow_two]
      by_cases hodd : e % 2 = 1
      · rw [if_pos hodd, Nat.mul_mod_mod, hsq, ← pow_succ']
        congr 2
        omega
      · rw [if_neg hodd, hsq]
        congr 2
        omega

/-- Lucas test with the powers computed by `powMod`: `n` is prime when `a` has
order `n - 1` modulo `n`, `L` listing the prime factors of `n - 1`. -/
theorem lucas_cert (n a : Nat) (L : List Nat) (hn : 1 < n) (hfuel : n < 2 ^ 256)
    (hL : ∀ q ∈ L, Nat.Prime q) (hprod : L.prod = n - 1)
    (h1 : powMod n 256 a (n - 1) = 1)
    (h2 : ∀ q ∈ L, powMod n 256 a ((n - 1) / q) ≠ 1) : Nat.Prime n := by
  have hcast : ∀ e : Nat, e < 2 ^ 256 →
      (((a : ZMod n) ^ e = 1) ↔ powMod n 256 a e = 1) := by
    intro e he
    rw [powMod_eq n 256 a e he]
    have h1n : (1 : ZMod n) = ((1 : Nat) : ZMod n) := by simp
    rw [h1n, ← Nat.cast_pow, ZMod.natCast_eq_natCast_iff', Nat.mod_eq_of_lt hn]
  apply lucas_primality n (a : ZMod n)
  · exact (hcast _ (by omega)).2 h1
  · intro q hq hdvd
    rw [← hprod] at hdvd
    obtain ⟨r, hr, hqr⟩ := (Prime.dvd_prod_iff hq.prime).1 hdvd
    have hqr2 : q = r := (Nat.prime_dvd_prime_iff_eq hq (hL r hr)).1 hqr
    subst hqr2
    intro hcon
    exact h2 q hr ((hcast _ (lt_of_le_of_lt (Nat.div_le_self _ _) (by omega))).1 hcon)

/-- Lucas certificate: 13331831 is prime. -/
theorem prime_13331831 : Nat.Prime 13331831 := by
  refine lucas_cert _ 13 [2, 5, 971, 1373] (by decide) (by decide) ?_ (by decide!) (by decide!) (by decide!)
  intro q hq
  simp only [List.mem_cons, List.mem_singleton, List.not_mem_nil, or_false] at hq
  rcases hq with rfl | rfl | rfl | rfl
  all_goals first | norm_num

/-- Lucas certificate: 173378833005251801 is prime. -/
theorem prime_173378833005251801 : Nat.Prime 173378833005251801 := by
  refine lucas_cert _ 6 [2, 2, 2, 5, 5, 2621, 24809, 13331831] (by decide) (by decide) ?_ (by decide!) (by decide!) (by decide!)
  intro q hq
  simp only [List.mem_cons, List.mem_singleton, List.not_mem_nil, or_false] at hq
  rcases hq with rfl | rfl | rfl | rfl | rfl | rfl | rfl | rfl
  all_goals first | exact prime_13331831 | norm_num

/-- Lucas certificate: 22149492674086928081353 is prime. -/
theorem prime_22149492674086928081353 : Nat.Prime 22149492674086928081353 := by
  refine lucas_cert _ 5 [2, 2, 2, 3, 5323, 173378833005251801] (by decide) (by decide) ?_ (by decide!) (by decide!) (by decide!)
  intro q hq
  simp only [List.mem_cons, List.mem_singleton, List.not_mem_nil, or_false] at hq
  rcases hq with rfl | rfl | rfl | rfl | rfl | rfl
  all_goals first | exact prime_173378833005251801 | norm_num

/-- Lucas certificate: 132896956044521568488119 is prime. -/
theorem prime_132896956044521568488119 : Nat.Prime 132896956044521568488119 := by
  refine lucas_cert _ 6 [2, 3, 22149492674086928081353] (by decide) (by decide) ?_ (by decide!) (by decide!) (by decide!)
  intro q hq
  simp only [List.mem_cons, List.mem_singleton, List.not_mem_nil, or_false] at hq
  rcases hq with rfl | rfl | rfl
  all_goals first | exact prime_22149492674086928081353 | norm_num

/-- Lucas certificate: 1206781 is prime. -/
theorem prime_1206781 : Nat.Prime 1206781 := by
  refine lucas_cert _ 10 [2, 2, 3, 5, 20113] (by decide) (by decide) ?_ (by decide!) (by decide!) (by decide!)
  intro q hq
  simp only [List.mem_cons, List.mem_singleton, List.not_mem_nil, or_false] at hq
  rcases hq with rfl | rfl | rfl | rfl | rfl
  all_goals first | norm_num

/-- Lucas certificate: 7240687 is prime. -/
theorem prime_7240687 : Nat.Prime 7240687 := by
  refine lucas_cert _ 3 [2, 3, 1206781] (by decide) (by decide) ?_ (by decide!) (by decide!) (by decide!)
  intro q hq
  simp only [List.mem_cons, List.mem_singleton, List.not_mem_nil, or_false] at hq
  rcases hq with rfl | rfl | rfl
  all_goals first | exact prime_1206781 | norm_num

/-- Lucas certificate: 107590001 is prime. -/
theorem prime_107590001 : Nat.Prime 107590001 := by
  refine lucas_cert _ 3 [2, 2, 2, 2, 5, 5, 5, 5, 7, 29, 53] (by decide) (by decide) ?_ (by decide!) (by decide!) (by decide!)
  intro q hq
  simp only [List.mem_cons, List.mem_singleton, List.not_mem_nil, or_false] at hq
  rcases hq with rfl | rfl | rfl | rfl | rfl | rfl | rfl | rfl | rfl | rfl | rfl
  all_goals first | norm_num

/-- Lucas certificate: 255515944373312847190720520512484175977 is prime. -/
theorem prime_255515944373312847190720520512484175977 : Nat.Prime 255515944373312847190720520512484175977 := by
  refine lucas_cert _ 3 [2, 2, 2, 7, 7, 11, 1627, 2657, 4423, 41201, 96557, 7240687, 107590001] (by decide) (by decide) ?_ (by decide!) (by decide!) (by decide!)
  intro q hq
  simp only [List.mem_cons, List.mem_singleton, List.not_mem_nil, or_false] at hq
  rcases hq with rfl | rfl | rfl | rfl | rfl | rfl | rfl | rfl | rfl | rfl | rfl | rfl | rfl
  all_goals first | exact prime_7240687 | exact prime_107590001 | norm_num

/-- Lucas certificate: 205115282021455665897114700593932402728804164701536103180137503955397371 is prime. -/
theorem prime_205115282021455665897114700593932402728804164701536103180137503955397371 : Nat.Prime 205115282021455665897114700593932402728804164701536103180137503955397371 := by
  refine lucas_cert _ 10 [2, 3, 5, 29, 29, 31, 7723, 132896956044521568488119, 255515944373312847190720520512484175977] (by decide) (by decide) ?_ (by decide!) (by decide!) (by decide!)
  intro q hq
  simp only [List.mem_cons, List.mem_singleton, List.not_mem_nil, or_false] at hq
  rcases hq with rfl | rfl | rfl | rfl | rfl | rfl | rfl | rfl | rfl
  all_goals first | exact prime_132896956044521568488119 | exact prime_255515944373312847190720520512484175977 | norm_num

/-- The field prime of secp256k1 is prime. -/
theorem secp256k1P_prime : Nat.Prime secp256k1P := by
  refine lucas_cert _ 3 [2, 3, 7, 13441, 205115282021455665897114700593932402728804164701536103180137503955397371] (by decide) (by decide) ?_ (by decide!) (by decide!) (by decide!)
  intro q hq
  simp only [List.mem_cons, List.mem_singleton, List.not_mem_nil, or_false] at hq
  rcases hq with rfl | rfl | rfl | rfl | rfl
  all_goals first | exact prime_205115282021455665897114700593932402728804164701536103180137503955397371 | norm_num

/-- Lucas certificate: 4681609 is prime. -/
theorem prime_4681609 : Nat.Prime 4681609 := by
  refine lucas_cert _ 23 [2, 2, 2, 3, 97, 2011] (by decide) (by decide) ?_ (by decide!) (by decide!) (by decide!)
  intro q hq
  simp only [List.mem_cons, List.mem_singleton, List.not_mem_nil, or_false] at hq
  rcases hq with rfl | rfl | rfl | rfl | rfl | rfl
  all_goals first | norm_num

/-- Lucas certificate: 107361793816595537 is prime. -/
theorem prime_107361793816595537 : Nat.Prime 107361793816595537 := by
  refine lucas_cert _ 3 [2, 2, 2, 2, 16699, 85831, 4681609] (by decide) (by decide) ?_ (by decide!) (by decide!) (by decide!)
  intro q hq
  simp only [List.mem_cons, List.mem_singleton, List.not_mem_nil, or_false] at hq
  rcases hq with rfl | rfl | rfl | rfl | rfl | rfl | rfl
  all_goals first | exact prime_4681609 | norm_num

/-- Lucas certificate: 44706919 is prime. -/
theorem prime_44706919 : Nat.Prime 44706919 := by
  refine lucas_cert _ 6 [2, 3, 797, 9349] (by decide) (by decide) ?_ (by decide!) (by decide!) (by decide!)
  intro q hq
  simp only [List.mem_cons, List.mem_singleton, List.not_mem_nil, or_false] at hq
  rcases hq with rfl | rfl | rfl | rfl
  all_goals first | norm_num

/-- Lucas certificate: 174723607534414371449 is prime. -/
theorem prime_174723607534414371449 : Nat.Prime 174723607534414371449 := by
  refine lucas_cert _ 3 [2, 2, 2, 17, 59, 4051, 120233, 44706919] (by decide) (by decide) ?_ (by decide!) (by decide!) (by decide!)
  intro q hq
  simp only [List.mem_cons, List.mem_singleton, List.not_mem_nil, or_false] at hq
  rcases hq with rfl | rfl | rfl | rfl | rfl | rfl | rfl | rfl
  all_goals first | exact prime_44706919 | norm_num

/-- Lucas certificate: 305873 is prime. -/
theorem prime_305873 : Nat.Prime 305873 := by
  refine lucas_cert _ 3 [2, 2, 2, 2, 7, 2731] (by decide) (by decide) ?_ (by decide!) (by decide!) (by decide!)
  intro q hq
  simp only [List.mem_cons, List.mem_singleton, List.not_mem_nil, or_false] at hq
  rcases hq with rfl | rfl | rfl | rfl | rfl | rfl
  all_goals first | norm_num

/-- Lucas certificate: 545358713 is prime. -/
theorem prime_545358713 : Nat.Prime 545358713 := by
  refine lucas_cert _ 5 [2, 2, 2, 41, 59, 28181] (by decide) (by decide) ?_ (by decide!) (by decide!) (by decide!)
  intro q hq
  simp only [List.mem_cons, List.mem_singleton, List.not_mem_nil, or_false] at hq
  rcases hq with rfl | rfl | rfl | rfl | rfl | rfl
  all_goals first | norm_num

/-- Lucas certificate: 1627771 is prime. -/
theorem prime_1627771 : Nat.Prime 1627771 := by
  refine lucas_cert _ 3 [2, 3, 5, 29, 1871] (by decide) (by decide) ?_ (by decide!) (by decide!) (by decide!)
  intro q hq
  simp only [List.mem_cons, List.mem_singleton, List.not_mem_nil, or_false] at hq
  rcases hq with rfl | rfl | rfl | rfl | rfl
  all_goals first | norm_num

/-- Lucas certificate: 297159362677 is prime. -/
theorem prime_297159362677 : Nat.Prime 297159362677 := by
  refine lucas_cert _ 2 [2, 2, 3, 3, 11, 461, 1627771] (by decide) (by decide) ?_ (by decide!) (by decide!) (by decide!)
  intro q hq
  simp only [List.mem_cons, List.mem_singleton, List.not_mem_nil, or_false] at hq
  rcases hq with rfl | rfl | rfl | rfl | rfl | rfl | rfl
  all_goals first | exact prime_1627771 | norm_num

/-- Lucas certificate: 29047611873442575647497758179 is prime. -/
theorem prime_29047611873442575647497758179 : Nat.Prime 29047611873442575647497758179 := by
  refine lucas_cert _ 2 [2, 293, 305873, 545358713, 297159362677] (by decide) (by decide) ?_ (by decide!) (by decide!) (by decide!)
  intro q hq
  simp only [List.mem_cons, List.mem_singleton, List.not_mem_nil, or_false] at hq
  rcases hq with rfl | rfl | rfl | rfl | rfl
  all_goals first | exact prime_305873 | exact prime_545358713 | exact prime_297159362677 | norm_num

/-- Lucas certificate: 341948486974166000522343609283189 is prime. -/
theorem prime_341948486974166000522343609283189 : Nat.Prime 341948486974166000522343609283189 := by
  refine lucas_cert _ 2 [2, 2, 3, 3, 3, 109, 29047611873442575647497758179] (by decide) (by decide) ?_ (by decide!) (by decide!) (by decide!)
  intro q hq
  simp only [List.mem_cons, List.mem_singleton, List.not_mem_nil, or_false] at hq
  rcases hq with rfl | rfl | rfl | rfl | rfl | rfl | rfl
  all_goals first | exact prime_29047611873442575647497758179 | norm_num

/-- The group order of secp256k1 is prime. -/
theorem secp256k1N_prime : Nat.Prime secp256k1N := by
  refine lucas_cert _ 7 [2, 2, 2, 2, 2, 2, 3, 149, 631, 107361793816595537, 174723607534414371449, 341948486974166000522343609283189] (by decide) (by decide) ?_ (by decide!) (by decide!) (by decide!)
  intro q hq
  simp only [List.mem_cons, List.mem_singleton, List.not_mem_nil, or_false] at hq
  rcases hq with rfl | rfl | rfl | rfl | rfl | rfl | rfl | rfl | rfl | rfl | rfl | rfl
  all_goals first | exact prime_107361793816595537 | exact prime_174723607534414371449 | exact prime_341948486974166000522343609283189 | norm_num

/-- The field prime as instance, for the field structure of the integers modulo it. -/
@[instance]
theorem secp256k1P_fact : Fact (Nat.Prime secp256k1P) := ⟨secp256k1P_prime⟩

theorem cast_sub_P {x : Nat} (hx : x < secp256k1P) :
    ((secp256k1P - x : Nat) : ZMod secp256k1P) = -(x : ZMod secp256k1P) := by
  rw [Nat.cast_sub (le_of_lt hx), ZMod.natCast_self, zero_sub]

theorem invP_cast (a : Nat) (ha : (a : ZMod secp256k1P) ≠ 0) :
    ((invP a : Nat) : ZMod secp256k1P) = (a : ZMod secp256k1P)⁻¹ := by
  unfold invP
  rw [powMod_eq _ _ _ _ (by decide), ZMod.natCast_mod, Nat.cast_pow, ZMod.natCast_mod]
  apply eq_inv_of_mul_eq_one_left
  rw [← pow_succ]
  have h := ZMod.pow_card_sub_one_eq_one ha
  have e : secp256k1P - 2 + 1 = secp256k1P - 1 := by decide
  rw [e]
  exact h

/-! ## The executable group law and the group of the curve -/

theorem P_pos : 0 < secp256k1P := by decide

theorem cast_inj_P {x y : Nat} (hx : x < secp256k1P) (hy : y < secp256k1P) :
    ((x : ZMod secp256k1P) = (y : ZMod secp256k1P)) ↔ x = y := by
  rw [ZMod.natCast_eq_natCast_iff', Nat.mod_eq_of_lt hx, Nat.mod_eq_of_lt hy]

theorem cast_add_eq_zero_P (x y : Nat) :
    ((x : ZMod secp256k1P) = -(y : ZMod secp256k1P)) ↔ (x + y) % secp256k1P = 0 := by
  rw [← Nat.dvd_iff_mod_eq_zero, ← ZMod.natCast_zmod_eq_zero_iff_dvd, Nat.cast_add,
    eq_neg_iff_add_eq_zero]

theorem negY_secp (x y : ZMod secp256k1P) : secp256k1Curve.toAffine.negY x y = -y := by
  simp [WeierstrassCurve.Affine.negY, secp256k1Curve]

theorem Represents_zero : Represents CurvePoint.infinity 0 := by
  change Represents CurvePoint.infinity WeierstrassCurve.Affine.Point.zero
  trivial

/-- The group law of the executable model is the group law of the curve. -/
theorem Represents_add {p1 p2 : CurvePoint} {q1 q2 : secp256k1Curve.toAffine.Point}
    (h1 : Represents p1 q1) (h2 : Represents p2 q2) :
    Represents (CurvePoint.add p1 p2) (q1 + q2) := by
  cases p1 with
  | infinity =>
    cases q1 with
    | zero =>
      have e : CurvePoint.add CurvePoint.infinity p2 = p2 := by cases p2 <;> rfl
      rw [e, WeierstrassCurve.Affine.Point.zero_def, zero_add]
      exact h2
    | some _ => exact h1.elim
  | affine x1 y1 =>
    cases q1 with
    | zero => exact h1.elim
    | @some X1 Y1 n1 =>
      cases p2 with
      | infinity =>
        cases q2 with
        | zero =>
          rw [WeierstrassCurve.Affine.Point.zero_def, add_zero]
          exact h1
        | some _ => exact h2.elim
      | affine x2 y2 =>
        cases q2 with
        | zero => exact h2.elim
        | @some X2 Y2 n2 =>
          obtain ⟨hx1, hy1, rfl, rfl⟩ := h1
          obtain ⟨hx2, hy2, rfl, rfl⟩ := h2
          unfold CurvePoint.add
          simp only
          by_cases hx : x1 = x2
          · have hxc : (x1 : ZMod secp256k1P) = (x2 : ZMod secp256k1P) := by rw [hx]
            rw [if_pos hx]
            by_cases hy : (y1 + y2) % secp256k1P = 0
            · rw [if_pos hy]
              have hyc : (y1 : ZMod secp256k1P) = secp256k1Curve.toAffine.negY x2 y2 := by
                rw [negY_secp]; exact (cast_add_eq_zero_P y1 y2).2 hy
              rw [WeierstrassCurve.Affine.Point.add_of_Y_eq hxc hyc]
              exact Represents_zero
            · rw [if_neg hy]
              have hyc : (y1 : ZMod secp256k1P) ≠ secp256k1Curve.toAffine.negY x2 y2 := by
                rw [negY_secp]; exact fun hcon => hy ((cast_add_eq_zero_P y1 y2).1 hcon)
              have hyy : (y1 : ZMod secp256k1P) = y2 :=
                WeierstrassCurve.Affine.Y_eq_of_Y_ne n1.1 n2.1 hxc hyc
              have h2y : ((2 * y1 : Nat) : ZMod secp256k1P) ≠ 0 := by
                intro hcon
                apply hyc
                rw [negY_secp, ← hyy]
                rw [Nat.cast_mul, Nat.cast_ofNat, two_mul] at hcon
                exact eq_neg_of_add_eq_zero_left hcon
              rw [WeierstrassCurve.Affine.Point.add_of_Y_ne hyc]
              refine ⟨Nat.mod_lt _ P_pos, Nat.mod_lt _ P_pos, ?_, ?_⟩
              · rw [WeierstrassCurve.Affine.slope_of_Y_ne hxc hyc]
                simp only [ZMod.natCast_mod, Nat.cast_add, Nat.cast_mul, cast_sub_P hx1,
                  invP_cast _ h2y, Nat.cast_ofNat, WeierstrassCurve.Affine.addX, negY_secp]
                simp only [secp256k1Curve]
                rw [← hxc]
                field_simp
                ring
              · rw [WeierstrassCurve.Affine.slope_of_Y_ne hxc hyc]
                simp only [ZMod.natCast_mod, Nat.cast_add, Nat.cast_mul, cast_sub_P hx1,
                  cast_sub_P hy1, cast_sub_P (Nat.mod_lt _ P_pos),
                  invP_cast _ h2y, Nat.cast_ofNat, WeierstrassCurve.Affine.addX,
                  WeierstrassCurve.Affine.addY, WeierstrassCurve.Affine.negAddY, negY_secp]
                simp only [secp256k1Curve]
                rw [← hxc]
                field_simp
                ring
          · have hxc : (x1 : ZMod secp256k1P) ≠ (x2 : ZMod secp256k1P) :=
              fun hcon => hx ((cast_inj_P hx1 hx2).1 hcon)
            have hdx : ((x2 + (secp256k1P - x1) : Nat) : ZMod secp256k1P) ≠ 0 := by
              rw [Nat.cast_add, cast_sub_P hx1, ← sub_eq_add_neg, sub_ne_zero]
              exact fun hcon => hxc hcon.symm
            have hdx2 : (x1 : ZMod secp256k1P) - x2 ≠ 0 := sub_ne_zero.2 hxc
            have hdx3 : (x2 : ZMod secp256k1P) + -(x1 : ZMod secp256k1P) ≠ 0 := by
              rw [← sub_eq_add_neg, sub_ne_zero]
              exact fun hcon => hxc hcon.symm
            rw [if_neg hx, WeierstrassCurve.Affine.Point.add_of_X_ne hxc]
            refine ⟨Nat.mod_lt _ P_pos, Nat.mod_lt _ P_pos, ?_, ?_⟩
            · rw [WeierstrassCurve.Affine.slope_of_X_ne hxc]
              simp only [ZMod.natCast_mod, Nat.cast_add, Nat.cast_mul, cast_sub_P hx1,
                cast_sub_P hx2, cast_sub_P hy1, invP_cast _ hdx, WeierstrassCurve.Affine.addX]
              simp only [secp256k1Curve]
              field_simp
              ring
            · rw [WeierstrassCurve.Affine.slope_of_X_ne hxc]
              simp only [ZMod.natCast_mod, Nat.cast_add, Nat.cast_mul, cast_sub_P hx1,
                cast_sub_P hx2, cast_sub_P hy1, cast_sub_P (Nat.mod_lt _ P_pos),
                invP_cast _ hdx, WeierstrassCurve.Affine.addX,
                WeierstrassCurve.Affine.addY, WeierstrassCurve.Affine.negAddY, negY_secp]
              simp only [secp256k1Curve]
              field_simp
              ring

theorem Represents_unique {p1 p2 : CurvePoint} {q : secp256k1Curve.toAffine.Point}
    (h1 : Represents p1 q) (h2 : Represents p2 q) : p1 = p2 := by
  cases q with
  | zero =>
    cases p1 with
    | infinity =>
      cases p2 with
      | infinity => rfl
      | affine _ _ => exact h2.elim
    | affine _ _ => exact h1.elim
  | @some X Y n =>
    cases p1 with
    | infinity => exact h1.elim
    | affine x1 y1 =>
      cases p2 with
      | infinity => exact h2.elim
      | affine x2 y2 =>
        obtain ⟨a1, a2, a3, a4⟩ := h1
        obtain ⟨b1, b2, b3, b4⟩ := h2
        rw [(cast_inj_P a1 b1).1 (a3.trans b3.symm), (cast_inj_P a2 b2).1 (a4.trans b4.symm)]

theorem Represents_infinity_iff {q : secp256k1Curve.toAffine.Point} :
    Represents CurvePoint.infinity q ↔ q = 0 := by
  cases q with
  | zero => exact ⟨fun _ => rfl, fun _ => trivial⟩
  | some n => exact ⟨fun h => h.elim, fun h => (WeierstrassCurve.Affine.Point.some_ne_zero n h).elim⟩

/-- The repeated sum of the model is the multiple in the group of the curve. -/
theorem Represents_smul {p : CurvePoint} {q : secp256k1Curve.toAffine.Point}
    (h : Represents p q) : ∀ k : Nat, Represents (CurvePoint.smul k p) (k • q)
  | 0 => by
    rw [zero_nsmul]
    exact Represents_zero
  | k + 1 => by
    rw [succ_nsmul]
    exact Represents_add (Represents_smul h k) h

/-- Double-and-add computes the multiple in the group of the curve. -/
theorem Represents_scalarMult :
    ∀ (fuel k : Nat) (p : CurvePoint) (q : secp256k1Curve.toAffine.Point),
      k < 2 ^ fuel → Represents p q → Represents (scalarMult fuel k p) (k • q)
  | 0, k, p, q, hk, _ => by
    have : k = 0 := by simpa using hk
    subst this
    rw [zero_nsmul]
    exact Represents_zero
  | fuel + 1, k, p, q, hk, h => by
    unfold scalarMult
    by_cases h0 : k = 0
    · rw [if_pos h0, h0, zero_nsmul]
      exact Represents_zero
    · rw [if_neg h0]
      have hlt : k / 2 < 2 ^ fuel := by
        rw [Nat.div_lt_iff_lt_mul (by norm_num)]
        rw [pow_succ] at hk
        exact hk
      have ih := Represents_scalarMult fuel (k / 2) (CurvePoint.add p p) (q + q) hlt
        (Represents_add h h)
      have e2 : (k / 2) • (q + q) = (2 * (k / 2)) • q := by
        rw [← two_nsmul, ← mul_nsmul, Nat.mul_comm]
      simp only
      by_cases hodd : k % 2 = 1
      · rw [if_pos hodd]
        have e : k • q = q + (k / 2) • (q + q) := by
          rw [e2, ← succ_nsmul']
          congr 1
          omega
        rw [e]
        exact Represents_add h ih
      · rw [if_neg hodd]
        have e : k • q = (k / 2) • (q + q) := by
          rw [e2]
          congr 1
          omega
        rw [e]
        exact ih

theorem secp256k1_Δ_ne_zero : secp256k1Curve.Δ ≠ 0 := by
  have e : secp256k1Curve.Δ = -((21168 : Nat) : ZMod secp256k1P) := by
    simp only [WeierstrassCurve.Δ, WeierstrassCurve.b₂, WeierstrassCurve.b₄,
      WeierstrassCurve.b₆, WeierstrassCurve.b₈, secp256k1Curve]
    push_cast
    ring
  rw [e, neg_ne_zero, Ne, ZMod.natCast_zmod_eq_zero_iff_dvd]
  intro hdvd
  exact absurd (Nat.le_of_dvd (by norm_num) hdvd) (by decide)

/-- A pair of coordinates that satisfies the curve equation modulo the field
prime is a nonsingular point of the curve. -/
theorem nonsingular_of_equation {x y : Nat}
    (h : (y * y) % secp256k1P = (x * x * x + 7) % secp256k1P) :
    secp256k1Curve.toAffine.Nonsingular (x : ZMod secp256k1P) (y : ZMod secp256k1P) := by
  refine WeierstrassCurve.Affine.nonsingular_of_Δ_ne_zero _ ?_ secp256k1_Δ_ne_zero
  rw [WeierstrassCurve.Affine.equation_iff]
  have hc := (ZMod.natCast_eq_natCast_iff' (y * y) (x * x * x + 7) secp256k1P).2 h
  push_cast at hc
  simp only [secp256k1Curve]
  linear_combination hc

/-- The base point is a nonsingular point of the curve. -/
theorem secp256k1G_nonsingular :
    secp256k1Curve.toAffine.Nonsingular (secp256k1Gx : ZMod secp256k1P)
      (secp256k1Gy : ZMod secp256k1P) :=
  nonsingular_of_equation (by decide!)

theorem Represents_affine {x y : Nat} (hx : x < secp256k1P) (hy : y < secp256k1P)
    (n : secp256k1Curve.toAffine.Nonsingular (x : ZMod secp256k1P) (y : ZMod secp256k1P)) :
    Represents (CurvePoint.affine x y) (WeierstrassCurve.Affine.Point.some n) :=
  ⟨hx, hy, rfl, rfl⟩

theorem Represents_base :
    Represents secp256k1G (WeierstrassCurve.Affine.Point.some secp256k1G_nonsingular) := by
  have h1 : secp256k1Gx < secp256k1P := by decide!
  have h2 : secp256k1Gy < secp256k1P := by decide!
  exact Represents_affine h1 h2 secp256k1G_nonsingular

/-- The group order times the base point is the point at infinity (computed). -/
theorem scalarMult_order_base :
    scalarMult 256 secp256k1N secp256k1G = CurvePoint.infinity := by
  decide!

theorem nsmul_eq_zero_of_scalarMult (k : Nat) (hk : k < 2 ^ 256) {p : CurvePoint}
    {q : secp256k1Curve.toAffine.Point} (h : Represents p q)
    (hinf : scalarMult 256 k p = CurvePoint.infinity) : k • q = 0 := by
  have h1 := Represents_scalarMult 256 k p q hk h
  rw [hinf] at h1
  exact Represents_infinity_iff.1 h1

/-- The base point has order N in the group of the curve: no multiple by a
scalar strictly between 0 and N is the point at infinity. -/
theorem nsmul_base_ne_zero (k : Nat) (h0 : k ≠ 0) (hN : k < secp256k1N) :
    k • WeierstrassCurve.Affine.Point.some secp256k1G_nonsingular ≠ 0 := by
  have hNG : secp256k1N • WeierstrassCurve.Affine.Point.some secp256k1G_nonsingular = 0 := by
    have hlt : secp256k1N < 2 ^ 256 := by decide!
    exact nsmul_eq_zero_of_scalarMult secp256k1N hlt Represents_base scalarMult_order_base
  have hdvd := addOrderOf_dvd_of_nsmul_eq_zero hNG
  have hord : addOrderOf (WeierstrassCurve.Affine.Point.some secp256k1G_nonsingular) =
      secp256k1N := by
    rcases (Nat.dvd_prime secp256k1N_prime).1 hdvd with h1 | h1
    · rw [AddMonoid.addOrderOf_eq_one_iff] at h1
      exact (WeierstrassCurve.Affine.Point.some_ne_zero _ h1).elim
    · exact h1
  intro hk
  have := addOrderOf_dvd_of_nsmul_eq_zero hk
  rw [hord] at this
  exact absurd (Nat.le_of_dvd (Nat.pos_of_ne_zero h0) this) (Nat.not_le.2 hN)

theorem Represents_affine_elim {p : CurvePoint} {q : secp256k1Curve.toAffine.Point}
    (h : Represents p q) (hq : q ≠ 0) :
    ∃ (x y : Nat)
      (n : secp256k1Curve.toAffine.Nonsingular (x : ZMod secp256k1P) (y : ZMod secp256k1P)),
      p = CurvePoint.affine x y ∧ x < secp256k1P ∧ y < secp256k1P ∧
      q = WeierstrassCurve.Affine.Point.some n := by
  cases q with
  | zero => exact (hq rfl).elim
  | @some X Y n =>
    cases p with
    | infinity => exact h.elim
    | affine x y =>
      obtain ⟨hx, hy, rfl, rfl⟩ := h
      exact ⟨x, y, n, rfl, hx, hy, rfl⟩

/-- For a scalar strictly between 0 and the group order, double-and-add from
the base point gives an affine point: the repeated sum of the base point, and
the multiple of the base point in the group of the curve. -/
theorem scalarMult_base (k : Nat) (h0 : k ≠ 0) (hN : k < secp256k1N) :
    ∃ (x y : Nat)
      (n : secp256k1Curve.toAffine.Nonsingular (x : ZMod secp256k1P) (y : ZMod secp256k1P)),
      scalarMult 256 k secp256k1G = CurvePoint.affine x y ∧
      CurvePoint.smul k secp256k1G = CurvePoint.affine x y ∧
      x < secp256k1P ∧ y < secp256k1P ∧
      WeierstrassCurve.Affine.Point.some n =
        k • WeierstrassCurve.Affine.Point.some secp256k1G_nonsingular := by
  have hN256 : secp256k1N < 2 ^ 256 := by decide!
  have hrep := Represents_scalarMult 256 k _ _ (lt_trans hN hN256) Represents_base
  obtain ⟨x, y, n, e, hx, hy, hq⟩ := Represents_affine_elim hrep (nsmul_base_ne_zero k h0 hN)
  refine ⟨x, y, n, e, ?_, hx, hy, hq.symm⟩
  rw [← e]
  exact Represents_unique (Represents_smul Represents_base k) hrep

/-- The accumulation of `SetBytes` gives the big-endian value. -/
theorem SetBytes_eq_bigEndianValue (b : List Nat) : SetBytes b = bigEndianValue b := by
  have gen : ∀ (l : List Nat) (acc : Nat),
      l.foldl (fun a x => a * 256 + x) acc = acc * 256 ^ l.length + bigEndianValue l := by
    intro l
    induction l with
    | nil => intro acc; simp [bigEndianValue]
    | cons x rest ih =>
      intro acc
      rw [List.foldl_cons, ih, bigEndianValue, List.length_cons, pow_succ]
      ring
  unfold SetBytes
  rw [gen]
  simp

/-! ## Lemmas on the constructor -/

section Claims

variable {W G DBH Q : Type}

/-- Lower-casing twice is lower-casing once. -/
theorem toLowerASCII_idem (s : GoString) : toLowerASCII (toLowerASCII s) = toLowerASCII s := by
  unfold toLowerASCII
  rw [List.map_map]
  apply List.map_congr_left
  intro c _
  simp only [Function.comp]
  split_ifs <;> omega

/-- A Config is returned only for an accepted key, and then holds the parsed key. -/
theorem NewConfig_some (x : Collaborators W G DBH Q) (c : Context) (w : W)
    (cfg : Config W DBH Q) (h : (NewConfigFromCliContext x c w).1.1 = some cfg) :
    keyAccepted (Hex2Bytes (c.String flags.ProcessorPrivateKey.Name)) ∧
    cfg.ProcessorPrivateKey =
      (ToECDSA (Hex2Bytes (c.String flags.ProcessorPrivateKey.Name))).1 := by
  by_cases hk : keyAccepted (Hex2Bytes (c.String flags.ProcessorPrivateKey.Name))
  · refine ⟨hk, ?_⟩
    obtain ⟨cfg1, h1, h2⟩ := NewConfig_of_key x c w _ (ToECDSA_accepted _ hk)
    rw [h1] at h
    simp only [Option.some.injEq] at h
    subst h
    rw [h2, ToECDSA_accepted _ hk]
  · obtain ⟨e, he⟩ := ToECDSA_rejected _ hk
    rw [NewConfig_of_error x c w _ _ he] at h
    simp at h

/-- Outcome of the constructor in terms of the key parser alone: the world is
untouched, the error is the wrapped parser error, a Config is returned exactly
when the parser reports no error. -/
theorem NewConfig_outcome (x : Collaborators W G DBH Q) (c : Context) (w : W) :
    (NewConfigFromCliContext x c w).2 = w ∧
    (NewConfigFromCliContext x c w).1.2 =
      (ToECDSA (Hex2Bytes (c.String flags.ProcessorPrivateKey.Name))).2.map
        (Errorf_w (go "invalid processorPrivateKey: ")) ∧
    (NewConfigFromCliContext x c w).1.1.isSome =
      (ToECDSA (Hex2Bytes (c.String flags.ProcessorPrivateKey.Name))).2.isNone := by
  unfold NewConfigFromCliContext
  split
  · rename_i heq
    simp [heq]
  · rename_i heq
    simp [heq]

/-- Address fields of a returned Config: each is `HexToAddress` of the text
of its own parameter. -/
theorem NewConfig_addresses (x : Collaborators W G DBH Q) (c : Context) (w : W)
    (cfg : Config W DBH Q) (h : (NewConfigFromCliContext x c w).1.1 = some cfg) :
    cfg.SrcSignalServiceAddress = HexToAddress (c.String flags.SrcSignalServiceAddress.Name) ∧
    cfg.DestTaikoAddress = HexToAddress (c.String flags.DestTaikoAddress.Name) ∧
    cfg.DestBridgeAddress = HexToAddress (c.String flags.DestBridgeAddress.Name) ∧
    cfg.DestERC721VaultAddress = HexToAddress (c.String flags.DestERC721VaultAddress.Name) ∧
    cfg.DestERC20VaultAddress = HexToAddress (c.String flags.DestERC20VaultAddress.Name) ∧
    cfg.DestERC1155VaultAddress = HexToAddress (c.String flags.DestERC1155VaultAddress.Name) := by
  unfold NewConfigFromCliContext at h
  split at h
  · simp at h
  · simp only [Option.some.injEq] at h
    subst h
    exact ⟨rfl, rfl, rfl, rfl, rfl, rfl⟩

/-- Factories of a returned Config: the calls they make. -/
theorem NewConfig_factories (x : Collaborators W G DBH Q) (c : Context) (w : W)
    (cfg : Config W DBH Q) (h : (NewConfigFromCliContext x c w).1.1 = some cfg) :
    (∀ w1, cfg.OpenDBFunc w1 =
      x.OpenDBConnection
        { Name := c.String flags.DatabaseUsername.Name
          Password := c.String flags.DatabasePassword.Name
          Database := c.String flags.DatabaseName.Name
          Host := c.String flags.DatabaseHost.Name
          MaxIdleConns := c.Uint64 flags.DatabaseMaxIdleConns.Name
          MaxOpenConns := c.Uint64 flags.DatabaseMaxOpenConns.Name
          MaxConnLifetime := c.Uint64 flags.DatabaseConnMaxLifetime.Name
          OpenFunc := openFunc x } w1) ∧
    (∀ w1, cfg.OpenQueueFunc w1 =
      match x.NewQueue
        { Username := c.String flags.QueueUsername.Name
          Password := c.String flags.QueuePassword.Name
          Host := c.String flags.QueueHost.Name
          Port := c.String flags.QueuePort.Name
          PrefetchCount := c.Uint64 flags.QueuePrefetchCount.Name } w1 with
      | ((_, some err), w2) => ((none, some err), w2)
      | ((q, none), w2) => ((q, none), w2)) := by
  unfold NewConfigFromCliContext at h
  split at h
  · simp at h
  · simp only [Option.some.injEq] at h
    subst h
    exact ⟨fun _ => rfl, fun _ => rfl⟩

/-- Database and queue fields of a returned Config: the values of the
parameter source under the names the factories read. -/
theorem NewConfig_resource_fields (x : Collaborators W G DBH Q) (c : Context) (w : W)
    (cfg : Config W DBH Q) (h : (NewConfigFromCliContext x c w).1.1 = some cfg) :
    cfg.DatabaseUsername = c.String flags.DatabaseUsername.Name ∧
    cfg.DatabasePassword = c.String flags.DatabasePassword.Name ∧
    cfg.DatabaseName = c.String flags.DatabaseName.Name ∧
    cfg.DatabaseHost = c.String flags.DatabaseHost.Name ∧
    cfg.DatabaseMaxIdleConns = c.Uint64 flags.DatabaseMaxIdleConns.Name ∧
    cfg.DatabaseMaxOpenConns = c.Uint64 flags.DatabaseMaxOpenConns.Name ∧
    cfg.DatabaseMaxConnLifetime = c.Uint64 flags.DatabaseConnMaxLifetime.Name ∧
    cfg.QueueUsername = c.String flags.QueueUsername.Name ∧
    cfg.QueuePassword = c.String flags.QueuePassword.Name ∧
    cfg.QueueHost = c.String flags.QueueHost.Name ∧
    cfg.QueuePort = c.Uint64 flags.QueuePort.Name ∧
    cfg.QueuePrefetch = c.Uint64 flags.QueuePrefetchCount.Name := by
  unfold NewConfigFromCliContext at h
  split at h
  · simp at h
  · simp only [Option.some.injEq] at h
    subst h
    exact ⟨rfl, rfl, rfl, rfl, rfl, rfl, rfl, rfl, rfl, rfl, rfl, rfl⟩

/-! ## The claims -/

/-- C1 as stated fails: a key text of 64 hex digits followed by two
characters that are not hex digits, and one followed by one more hex digit,
are malformed hex, yet the constructor returns a Config and no error. -/
theorem C1_trailing_text_accepted :
    malformedKeyHex (keyOne ++ go "zz") = true ∧
    (NewConfigFromCliContext logging
      (sampleContext (keyOne ++ go "zz") sampleAddress (go "db:3306")) []).1.2 = none ∧
    (NewConfigFromCliContext logging
      (sampleContext (keyOne ++ go "zz") sampleAddress (go "db:3306")) []).1.1.isSome = true ∧
    malformedKeyHex (keyOne ++ go "a") = true ∧
    (NewConfigFromCliContext logging
      (sampleContext (keyOne ++ go "a") sampleAddress (go "db:3306")) []).1.2 = none ∧
    (NewConfigFromCliContext logging
      (sampleContext (keyOne ++ go "a") sampleAddress (go "db:3306")) []).1.1.isSome = true := by
  decide

/-- C1 amended: when the key text does not begin with exactly 32 complete
pairs of hex digits (it has fewer than 64 characters, or a character that is
not a hex digit among its first 64, or at least 66 leading hex digits) the
constructor returns no Config and the error "invalid processorPrivateKey:
invalid length, need 256 bits". -/
theorem C1_key_text_rejected (x : Collaborators W G DBH Q) (c : Context) (w : W)
    (h : (c.String flags.ProcessorPrivateKey.Name).length < 64 ∨
      (∃ ch ∈ (c.String flags.ProcessorPrivateKey.Name).take 64, isHexDigit ch = false) ∨
      (66 ≤ (c.String flags.ProcessorPrivateKey.Name).length ∧
        ∀ ch ∈ (c.String flags.ProcessorPrivateKey.Name).take 66, isHexDigit ch = true)) :
    (NewConfigFromCliContext x c w).1 =
      (none, some (GoError.wrapError
        (go "invalid processorPrivateKey: invalid length, need 256 bits")
        (GoError.errorString (go "invalid length, need 256 bits")))) := by
  have hlen : (Hex2Bytes (c.String flags.ProcessorPrivateKey.Name)).length ≠ 32 := by
    rw [Hex2Bytes_length]
    rcases h with h | h | h
    · have := leadingHexPairs_length_le (c.String flags.ProcessorPrivateKey.Name)
      omega
    · have := leadingHexPairs_length_lt 32 _ h
      omega
    · have := leadingHexPairs_length_ge 33 _ h.1 h.2
      omega
  rw [NewConfig_of_error x c w _ _ (ToECDSA_short _ hlen)]
  have e : Errorf_w (go "invalid processorPrivateKey: ")
      (GoError.errorString (go "invalid length, need 256 bits")) =
      GoError.wrapError (go "invalid processorPrivateKey: invalid length, need 256 bits")
        (GoError.errorString (go "invalid length, need 256 bits")) := by decide
  rw [e]

/-- Witness of C1 amended: a key text with a 0x prefix has a character that is
not a hex digit in second place and is rejected. -/
theorem C1_key_text_rejected_witness :
    (NewConfigFromCliContext logging
      (sampleContext (go "0x" ++ keyOne) sampleAddress (go "db:3306")) []).1 =
      (none, some (GoError.wrapError
        (go "invalid processorPrivateKey: invalid length, need 256 bits")
        (GoError.errorString (go "invalid length, need 256 bits")))) :=
  C1_key_text_rejected logging (sampleContext (go "0x" ++ keyOne) sampleAddress (go "db:3306"))
    [] (Or.inr (Or.inl ⟨120, by decide, by decide⟩))

/-- C2 as stated fails: with a valid key and the source signal service address
text "zz" (not 40 hex digits, not hex at all) the constructor returns a Config
and no error; the field holds the zero address. -/
theorem C2_malformed_address_accepted :
    wellFormedAddressText (go "zz") = false ∧
    (NewConfigFromCliContext logging
      (sampleContext keyOne (go "zz") (go "db:3306")) []).1.2 = none ∧
    ((NewConfigFromCliContext logging
      (sampleContext keyOne (go "zz") (go "db:3306")) []).1.1.map
        (fun cfg => cfg.SrcSignalServiceAddress)) = some { bytes := List.replicate 20 0 } := by
  decide

/-- C2 amended: with an accepted signing key the constructor returns a Config
and no error whatever the six address texts are, and each address field is
the lenient conversion `HexToAddress` of the text of its own parameter. -/
theorem C2_addresses_never_fail (x : Collaborators W G DBH Q) (c : Context) (w : W)
    (hk : keyAccepted (Hex2Bytes (c.String flags.ProcessorPrivateKey.Name))) :
    ∃ cfg : Config W DBH Q,
      (NewConfigFromCliContext x c w).1 = (some cfg, none) ∧
      cfg.SrcSignalServiceAddress = HexToAddress (c.String flags.SrcSignalServiceAddress.Name) ∧
      cfg.DestTaikoAddress = HexToAddress (c.String flags.DestTaikoAddress.Name) ∧
      cfg.DestBridgeAddress = HexToAddress (c.String flags.DestBridgeAddress.Name) ∧
      cfg.DestERC721VaultAddress = HexToAddress (c.String flags.DestERC721VaultAddress.Name) ∧
      cfg.DestERC20VaultAddress = HexToAddress (c.String flags.DestERC20VaultAddress.Name) ∧
      cfg.DestERC1155VaultAddress =
        HexToAddress (c.String flags.DestERC1155VaultAddress.Name) := by
  obtain ⟨cfg, h1, _⟩ := NewConfig_of_key x c w _ (ToECDSA_accepted _ hk)
  refine ⟨cfg, by rw [h1], ?_⟩
  exact NewConfig_addresses x c w cfg (by rw [h1])

/-- Witness of C2 amended: the sample source with the address text "0x12345",
of odd length and too short, gives a Config whose field is the left-padded
address. -/
theorem C2_addresses_never_fail_witness :
    ∃ cfg : Config (List GoString) Unit Unit,
      (NewConfigFromCliContext logging
        (sampleContext keyOne (go "0x12345") (go "db:3306")) []).1 = (some cfg, none) ∧
      cfg.SrcSignalServiceAddress =
        { bytes := [0, 0, 0, 0, 0, 0, 0, 0, 0, 0, 0, 0, 0, 0, 0, 0, 0, 0x01, 0x23, 0x45] } := by
  obtain ⟨cfg, h1, h2, _⟩ :=
    C2_addresses_never_fail logging (sampleContext keyOne (go "0x12345") (go "db:3306")) []
      ⟨by decide, by decide, by decide⟩
  exact ⟨cfg, h1, h2.trans (by decide)⟩

/-- C3: the constructor returns exactly one of a Config and an error; the
error of a key failure has a message starting with "invalid
processorPrivateKey" and wraps the error of the key parser. -/
theorem C3_config_xor_error (x : Collaborators W G DBH Q) (c : Context) (w : W) :
    ((NewConfigFromCliContext x c w).1.2 ≠ none → (NewConfigFromCliContext x c w).1.1 = none) ∧
    ((NewConfigFromCliContext x c w).1.1 ≠ none → (NewConfigFromCliContext x c w).1.2 = none) ∧
    ((NewConfigFromCliContext x c w).1.1 ≠ none ∨ (NewConfigFromCliContext x c w).1.2 ≠ none) ∧
    (∀ e, (NewConfigFromCliContext x c w).1.2 = some e →
      go "invalid processorPrivateKey" <+: e.Error ∧
      ∃ inner, (ToECDSA (Hex2Bytes (c.String flags.ProcessorPrivateKey.Name))).2 = some inner ∧
        e.Unwrap = some inner ∧
        e.Error = go "invalid processorPrivateKey: " ++ inner.Error) := by
  by_cases hk : keyAccepted (Hex2Bytes (c.String flags.ProcessorPrivateKey.Name))
  · obtain ⟨cfg1, h1, _⟩ := NewConfig_of_key x c w _ (ToECDSA_accepted _ hk)
    rw [h1]
    simp
  · obtain ⟨m, he⟩ := ToECDSA_rejected _ hk
    rw [NewConfig_of_error x c w _ _ he, he]
    refine ⟨fun _ => rfl, fun h => absurd rfl h, Or.inr (by simp), ?_⟩
    intro e h
    simp only [Option.some.injEq] at h
    subst h
    refine ⟨?_, _, rfl, rfl, rfl⟩
    simp only [Errorf_w, GoError.Error]
    have e1 : go "invalid processorPrivateKey: " = go "invalid processorPrivateKey" ++ go ": " := by
      decide
    rw [e1, List.append_assoc]
    exact List.prefix_append _ _

/-- C4: on success every string, numeric and boolean field of the Config is
the value the parameter source gives under the field's own parameter name. -/
theorem C4_fields_copied_verbatim (x : Collaborators W G DBH Q) (c : Context) (w : W)
    (cfg : Config W DBH Q) (h : (NewConfigFromCliContext x c w).1.1 = some cfg) :
    cfg.DatabaseUsername = c.String flags.DatabaseUsername.Name ∧
    cfg.DatabasePassword = c.String flags.DatabasePassword.Name ∧
    cfg.DatabaseName = c.String flags.DatabaseName.Name ∧
    cfg.DatabaseHost = c.String flags.DatabaseHost.Name ∧
    cfg.DatabaseMaxIdleConns = c.Uint64 flags.DatabaseMaxIdleConns.Name ∧
    cfg.DatabaseMaxOpenConns = c.Uint64 flags.DatabaseMaxOpenConns.Name ∧
    cfg.DatabaseMaxConnLifetime = c.Uint64 flags.DatabaseConnMaxLifetime.Name ∧
    cfg.QueueUsername = c.String flags.QueueUsername.Name ∧
    cfg.QueuePassword = c.String flags.QueuePassword.Name ∧
    cfg.QueueHost = c.String flags.QueueHost.Name ∧
    cfg.QueuePort = c.Uint64 flags.QueuePort.Name ∧
    cfg.QueuePrefetch = c.Uint64 flags.QueuePrefetchCount.Name ∧
    cfg.SrcRPCUrl = c.String flags.SrcRPCUrl.Name ∧
    cfg.DestRPCUrl = c.String flags.DestRPCUrl.Name ∧
    cfg.HeaderSyncInterval = c.Uint64 flags.HeaderSyncInterval.Name ∧
    cfg.Confirmations = c.Uint64 flags.Confirmations.Name ∧
    cfg.ConfirmationsTimeout = c.Uint64 flags.ConfirmationTimeout.Name ∧
    cfg.ProfitableOnly = c.Bool flags.ProfitableOnly.Name ∧
    cfg.BackoffRetryInterval = c.Uint64 flags.BackOffRetryInterval.Name ∧
    cfg.BackOffMaxRetrys = c.Uint64 flags.BackOffMaxRetrys.Name ∧
    cfg.ETHClientTimeout = c.Uint64 flags.ETHClientTimeout.Name := by
  unfold NewConfigFromCliContext at h
  split at h
  · simp at h
  · simp only [Option.some.injEq] at h
    subst h
    exact ⟨rfl, rfl, rfl, rfl, rfl, rfl, rfl, rfl, rfl, rfl, rfl, rfl, rfl, rfl, rfl, rfl, rfl,
      rfl, rfl, rfl, rfl⟩

/-- Witness of C4 on the sample parameter source: the copied values. -/
theorem C4_fields_copied_verbatim_witness :
    goodConfig.DatabaseUsername = go "u" ∧
    goodConfig.DatabasePassword = go "p" ∧
    goodConfig.DatabaseName = go "relayer" ∧
    goodConfig.DatabaseHost = go "db:3306" ∧
    goodConfig.DatabaseMaxIdleConns = 50 ∧
    goodConfig.DatabaseMaxOpenConns = 200 ∧
    goodConfig.DatabaseMaxConnLifetime = 3600 ∧
    goodConfig.QueueUsername = go "guest" ∧
    goodConfig.QueuePassword = go "secret" ∧
    goodConfig.QueueHost = go "mq" ∧
    goodConfig.QueuePort = 5672 ∧
    goodConfig.QueuePrefetch = 10 ∧
    goodConfig.SrcRPCUrl = go "ws://l1:8546" ∧
    goodConfig.DestRPCUrl = go "ws://l2:8546" ∧
    goodConfig.HeaderSyncInterval = 2 ∧
    goodConfig.Confirmations = 3 ∧
    goodConfig.ConfirmationsTimeout = 360 ∧
    goodConfig.ProfitableOnly = true ∧
    goodConfig.BackoffRetryInterval = 12 ∧
    goodConfig.BackOffMaxRetrys = 5 ∧
    goodConfig.ETHClientTimeout = 30 :=
  C4_fields_copied_verbatim logging goodContext [] goodConfig (Option.some_get _).symm

/-- C5: with a valid key and six address texts made of a 0x prefix and 40
hex digits, each address field of the Config, rendered as hex, equals the
text of its own parameter up to letter case. -/
theorem C5_address_round_trip (x : Collaborators W G DBH Q) (c : Context) (w : W)
    (cfg : Config W DBH Q) (h : (NewConfigFromCliContext x c w).1.1 = some cfg)
    (h1 : prefixedAddressText (c.String flags.SrcSignalServiceAddress.Name) = true)
    (h2 : prefixedAddressText (c.String flags.DestTaikoAddress.Name) = true)
    (h3 : prefixedAddressText (c.String flags.DestBridgeAddress.Name) = true)
    (h4 : prefixedAddressText (c.String flags.DestERC721VaultAddress.Name) = true)
    (h5 : prefixedAddressText (c.String flags.DestERC20VaultAddress.Name) = true)
    (h6 : prefixedAddressText (c.String flags.DestERC1155VaultAddress.Name) = true) :
    toLowerASCII cfg.SrcSignalServiceAddress.hex
      = toLowerASCII (c.String flags.SrcSignalServiceAddress.Name) ∧
    toLowerASCII cfg.DestTaikoAddress.hex
      = toLowerASCII (c.String flags.DestTaikoAddress.Name) ∧
    toLowerASCII cfg.DestBridgeAddress.hex
      = toLowerASCII (c.String flags.DestBridgeAddress.Name) ∧
    toLowerASCII cfg.DestERC721VaultAddress.hex
      = toLowerASCII (c.String flags.DestERC721VaultAddress.Name) ∧
    toLowerASCII cfg.DestERC20VaultAddress.hex
      = toLowerASCII (c.String flags.DestERC20VaultAddress.Name) ∧
    toLowerASCII cfg.DestERC1155VaultAddress.hex
      = toLowerASCII (c.String flags.DestERC1155VaultAddress.Name) := by
  obtain ⟨e1, e2, e3, e4, e5, e6⟩ := NewConfig_addresses x c w cfg h
  rw [e1, e2, e3, e4, e5, e6, HexToAddress_roundtrip _ h1, HexToAddress_roundtrip _ h2,
    HexToAddress_roundtrip _ h3, HexToAddress_roundtrip _ h4, HexToAddress_roundtrip _ h5,
    HexToAddress_roundtrip _ h6]
  simp only [toLowerASCII_idem, and_self]

/-- Witness of C5 on the sample parameter source, whose six address texts differ. -/
theorem C5_address_round_trip_witness :
    toLowerASCII goodConfig.SrcSignalServiceAddress.hex
      = go "0xdeadbeefdeadbeefdeadbeefdeadbeefdeadbeef" ∧
    toLowerASCII goodConfig.DestTaikoAddress.hex
      = go "0x1000777700000000000000000000000000000001" ∧
    toLowerASCII goodConfig.DestBridgeAddress.hex
      = go "0x1000777700000000000000000000000000000002" ∧
    toLowerASCII goodConfig.DestERC721VaultAddress.hex
      = go "0x1000777700000000000000000000000000000003" ∧
    toLowerASCII goodConfig.DestERC20VaultAddress.hex
      = go "0x100077770000000000000000000000000000abcd" ∧
    toLowerASCII goodConfig.DestERC1155VaultAddress.hex
      = go "0x100077770000000000000000000000000000abcd" :=
  C5_address_round_trip logging goodContext [] goodConfig (Option.some_get _).symm
    (by decide) (by decide) (by decide) (by decide) (by decide) (by decide)

/-- C6: a returned Config holds a signing key; its scalar D is the big-endian
value of the 32 bytes decoded from the key text and lies strictly between 0
and the group order; the public key is an affine point of the curve with
coordinates below the field prime, equal to the base point added to itself D
times and to D times the base point in the group of the curve. -/
theorem C6_signing_key_valid (x : Collaborators W G DBH Q) (c : Context) (w : W)
    (cfg : Config W DBH Q) (h : (NewConfigFromCliContext x c w).1.1 = some cfg) :
    ∃ key : PrivateKey,
      cfg.ProcessorPrivateKey = some key ∧
      (Hex2Bytes (c.String flags.ProcessorPrivateKey.Name)).length = 32 ∧
      0 < key.D ∧ key.D < secp256k1N ∧
      key.D = bigEndianValue (Hex2Bytes (c.String flags.ProcessorPrivateKey.Name)) ∧
      key.X < secp256k1P ∧ key.Y < secp256k1P ∧
      CurvePoint.affine key.X key.Y = CurvePoint.smul key.D secp256k1G ∧
      ∃ (hG : secp256k1Curve.toAffine.Nonsingular (secp256k1Gx : ZMod secp256k1P)
            (secp256k1Gy : ZMod secp256k1P))
        (hQ : secp256k1Curve.toAffine.Nonsingular (key.X : ZMod secp256k1P)
            (key.Y : ZMod secp256k1P)),
        WeierstrassCurve.Affine.Point.some hQ = key.D • WeierstrassCurve.Affine.Point.some hG := by
  obtain ⟨hk, hkey⟩ := NewConfig_some x c w cfg h
  rw [ToECDSA_accepted _ hk] at hkey
  obtain ⟨px, py, n, e1, e2, hx, hy, hq⟩ := scalarMult_base _ hk.2.1 hk.2.2
  rw [e1] at hkey
  simp only [CurvePoint.toXY] at hkey
  exact ⟨_, hkey, hk.1, Nat.pos_of_ne_zero hk.2.1, hk.2.2, SetBytes_eq_bigEndianValue _, hx, hy,
    e2.symm, secp256k1G_nonsingular, n, hq⟩

/-- Witness of C6 on a published key pair: the Config built from the key text
18E14A7B...1725 holds that scalar and the public point 50863AD6...2352,
2CD47024...2BA6, which is the scalar times the base point in the group of the
curve. -/
theorem C6_signing_key_valid_witness :
    pairConfig.ProcessorPrivateKey = some
      { D := 0x18E14A7B6A307F426A94F8114701E7C8E774E7F9A47E2C2035DB29A206321725
        X := 0x50863AD64A87AE8A2FE83C1AF1A8403CB53F53E486D8511DAD8A04887E5B2352
        Y := 0x2CD470243453A299FA9E77237716103ABC11A1DF38855ED6F2EE187E9C582BA6 } ∧
    bigEndianValue (Hex2Bytes pairKey) =
      0x18E14A7B6A307F426A94F8114701E7C8E774E7F9A47E2C2035DB29A206321725 ∧
    ∃ (hG : secp256k1Curve.toAffine.Nonsingular (secp256k1Gx : ZMod secp256k1P)
          (secp256k1Gy : ZMod secp256k1P))
      (hQ : secp256k1Curve.toAffine.Nonsingular
        ((0x50863AD64A87AE8A2FE83C1AF1A8403CB53F53E486D8511DAD8A04887E5B2352 : Nat) :
          ZMod secp256k1P)
        ((0x2CD470243453A299FA9E77237716103ABC11A1DF38855ED6F2EE187E9C582BA6 : Nat) :
          ZMod secp256k1P)),
      WeierstrassCurve.Affine.Point.some hQ =
        0x18E14A7B6A307F426A94F8114701E7C8E774E7F9A47E2C2035DB29A206321725 •
          WeierstrassCurve.Affine.Point.some hG := by
  have hcfg : pairConfig.ProcessorPrivateKey = some
      { D := 0x18E14A7B6A307F426A94F8114701E7C8E774E7F9A47E2C2035DB29A206321725
        X := 0x50863AD64A87AE8A2FE83C1AF1A8403CB53F53E486D8511DAD8A04887E5B2352
        Y := 0x2CD470243453A299FA9E77237716103ABC11A1DF38855ED6F2EE187E9C582BA6 } := by
    decide!
  obtain ⟨key, h1, _, _, _, h5, _, _, _, hG, hQ, h9⟩ :=
    C6_signing_key_valid logging pairContext [] pairConfig (Option.some_get _).symm
  rw [hcfg] at h1
  have hk := (Option.some.inj h1).symm
  subst hk
  exact ⟨hcfg, h5.symm, hG, hQ, h9⟩

/-- C7: construction runs no collaborator, so the world is left as it was and
the outcome is the same for every behaviour of the database opener and queue
constructor; the openers run when a factory is invoked; and the outcome does
not depend on any database or queue parameter. -/
theorem C7_construction_opens_nothing (x : Collaborators W G DBH Q) (c c2 : Context) (w : W)
    (hsame : ∀ name, name ∉ resourceParameterNames → c2.Lookup name = c.Lookup name) :
    (NewConfigFromCliContext x c w).2 = w ∧
    (∀ (W2 G2 DBH2 Q2 : Type) (x2 : Collaborators W2 G2 DBH2 Q2) (w2 : W2),
      (NewConfigFromCliContext x2 c w2).2 = w2 ∧
      (NewConfigFromCliContext x2 c w2).1.2 = (NewConfigFromCliContext x c w).1.2 ∧
      (NewConfigFromCliContext x2 c w2).1.1.isSome = (NewConfigFromCliContext x c w).1.1.isSome) ∧
    (∀ cfg, (NewConfigFromCliContext x c w).1.1 = some cfg →
      (∃ opts, ∀ w1, cfg.OpenDBFunc w1 = x.OpenDBConnection opts w1) ∧
      (∃ opts, ∀ w1, (cfg.OpenQueueFunc w1).2 = (x.NewQueue opts w1).2)) ∧
    (NewConfigFromCliContext x c2 w).1.2 = (NewConfigFromCliContext x c w).1.2 ∧
    (NewConfigFromCliContext x c2 w).1.1.isSome = (NewConfigFromCliContext x c w).1.1.isSome := by
  have hkey : c2.String flags.ProcessorPrivateKey.Name = c.String flags.ProcessorPrivateKey.Name := by
    unfold Context.String
    rw [hsame _ (by decide)]
  obtain ⟨a1, a2, a3⟩ := NewConfig_outcome x c w
  obtain ⟨b1, b2, b3⟩ := NewConfig_outcome x c2 w
  refine ⟨a1, ?_, ?_, ?_, ?_⟩
  · intro W2 G2 DBH2 Q2 x2 w2
    obtain ⟨d1, d2, d3⟩ := NewConfig_outcome x2 c w2
    exact ⟨d1, by rw [d2, a2], by rw [d3, a3]⟩
  · intro cfg h
    obtain ⟨f1, f2⟩ := NewConfig_factories x c w cfg h
    refine ⟨⟨_, f1⟩, ⟨NewQueueOpts.mk (c.String flags.QueueUsername.Name)
      (c.String flags.QueuePassword.Name) (c.String flags.QueueHost.Name)
      (c.String flags.QueuePort.Name) (c.Uint64 flags.QueuePrefetchCount.Name), fun w1 => ?_⟩⟩
    rw [f2 w1]
    split <;> rename_i heq <;> rw [heq]
  · rw [b2, a2, hkey]
  · rw [b3, a3, hkey]

/-- Witness of C7: the sample source and the same source with another
database host; with collaborators that log every call, the log is still empty
after construction and holds the database host after the factory ran. -/
theorem C7_construction_opens_nothing_witness :
    (NewConfigFromCliContext logging goodContext []).2 = [] ∧
    (goodConfig.OpenDBFunc []).2 = [go "db:3306"] ∧
    (NewConfigFromCliContext logging
      (goodContext.set flags.DatabaseHost.Name (FlagValue.stringValue (go "unreachable.invalid:1")))
      []).1.2 = (NewConfigFromCliContext logging goodContext []).1.2 := by
  have h := C7_construction_opens_nothing logging goodContext
    (goodContext.set flags.DatabaseHost.Name (FlagValue.stringValue (go "unreachable.invalid:1")))
    [] (by
      intro name hn
      unfold Context.set
      have : name ≠ flags.DatabaseHost.Name := by
        rintro rfl
        exact hn (by decide)
      simp only [this, if_false])
  exact ⟨h.1, by decide, h.2.2.2.1⟩

/-- C8: every invocation of the database factory of a returned Config calls
the opener with options equal to the database fields of the Config and returns
what the opener returns. -/
theorem C8_database_factory_options (x : Collaborators W G DBH Q) (c : Context) (w : W)
    (cfg : Config W DBH Q) (h : (NewConfigFromCliContext x c w).1.1 = some cfg) :
    ∃ opts : DBConnectionOpts W DBH,
      opts.Name = cfg.DatabaseUsername ∧
      opts.Password = cfg.DatabasePassword ∧
      opts.Database = cfg.DatabaseName ∧
      opts.Host = cfg.DatabaseHost ∧
      opts.MaxIdleConns = cfg.DatabaseMaxIdleConns ∧
      opts.MaxOpenConns = cfg.DatabaseMaxOpenConns ∧
      opts.MaxConnLifetime = cfg.DatabaseMaxConnLifetime ∧
      opts.OpenFunc = openFunc x ∧
      (∀ w1, cfg.OpenDBFunc w1 = x.OpenDBConnection opts w1) ∧
      (∀ w1, cfg.OpenDBFunc (cfg.OpenDBFunc w1).2 =
        x.OpenDBConnection opts (x.OpenDBConnection opts w1).2) := by
  obtain ⟨f1, _⟩ := NewConfig_factories x c w cfg h
  obtain ⟨g1, g2, g3, g4, g5, g6, g7, _⟩ := NewConfig_resource_fields x c w cfg h
  refine ⟨_, ?_, ?_, ?_, ?_, ?_, ?_, ?_, rfl, f1, fun w1 => ?_⟩
  · exact g1.symm
  · exact g2.symm
  · exact g3.symm
  · exact g4.symm
  · exact g5.symm
  · exact g6.symm
  · exact g7.symm
  · rw [f1, f1]

/-- Witness of C8 on the sample Config with logging collaborators: the opener
receives the database fields; invoked twice, it is called twice with the same
host and the error of the opener comes back. -/
theorem C8_database_factory_options_witness :
    ∃ opts : DBConnectionOpts (List GoString) Unit,
      opts.Name = go "u" ∧
      opts.Password = go "p" ∧
      opts.Database = go "relayer" ∧
      opts.Host = go "db:3306" ∧
      opts.MaxIdleConns = 50 ∧
      opts.MaxOpenConns = 200 ∧
      opts.MaxConnLifetime = 3600 ∧
      goodConfig.OpenDBFunc [] = logging.OpenDBConnection opts [] ∧
      goodConfig.OpenDBFunc (goodConfig.OpenDBFunc []).2 =
        ((none, some (GoError.errorString (go "dial tcp: no route to host"))),
          [go "db:3306", go "db:3306"]) := by
  obtain ⟨opts, h1, h2, h3, h4, h5, h6, h7, _, hcall, _⟩ :=
    C8_database_factory_options logging goodContext [] goodConfig (Option.some_get _).symm
  exact ⟨opts, h1, h2, h3, h4, h5, h6, h7, hcall [], by decide⟩

/-- C10: the constructor fails exactly when the bytes obtained by leniently
hex-decoding the key text are not 32 bytes, or encode 0, or encode a value not
below the group order; nothing but the key text decides failure; and every
address text is converted to 20 bytes, the last 20 decoded bytes when there
are more, left-padded with zero bytes when there are fewer. -/
theorem C10_fails_iff_key_rejected (x : Collaborators W G DBH Q) (c : Context) (w : W) :
    ((NewConfigFromCliContext x c w).1.2 ≠ none ↔
      ((lenientHexDecode (c.String flags.ProcessorPrivateKey.Name)).length ≠ 32 ∨
        SetBytes (lenientHexDecode (c.String flags.ProcessorPrivateKey.Name)) = 0 ∨
        secp256k1N ≤ SetBytes (lenientHexDecode (c.String flags.ProcessorPrivateKey.Name)))) ∧
    Hex2Bytes (c.String flags.ProcessorPrivateKey.Name) =
      lenientHexDecode (c.String flags.ProcessorPrivateKey.Name) ∧
    (∀ c2 : Context,
      c2.String flags.ProcessorPrivateKey.Name = c.String flags.ProcessorPrivateKey.Name →
      (NewConfigFromCliContext x c2 w).1.2 = (NewConfigFromCliContext x c w).1.2) ∧
    (∀ s : GoString,
      (HexToAddress s).bytes.length = 20 ∧
      (20 ≤ (FromHex s).length →
        (HexToAddress s).bytes = (FromHex s).drop ((FromHex s).length - 20)) ∧
      ((FromHex s).length < 20 →
        (HexToAddress s).bytes = List.replicate (20 - (FromHex s).length) 0 ++ FromHex s)) := by
  obtain ⟨_, a2, _⟩ := NewConfig_outcome x c w
  refine ⟨?_, Hex2Bytes_eq_lenient _, ?_, ?_⟩
  · rw [a2, ← Hex2Bytes_eq_lenient]
    by_cases hk : keyAccepted (Hex2Bytes (c.String flags.ProcessorPrivateKey.Name))
    · rw [ToECDSA_accepted _ hk]
      obtain ⟨k1, k2, k3⟩ := hk
      simp only [Option.map_none', ne_eq, not_true_eq_false, false_iff, not_or, not_not]
      exact ⟨k1, k2, Nat.not_le.mpr k3⟩
    · obtain ⟨m, he⟩ := ToECDSA_rejected _ hk
      rw [he]
      simp only [Option.map_some', ne_eq, reduceCtorEq, not_false_eq_true, true_iff]
      by_contra hcon
      simp only [not_or, not_not, Nat.not_le] at hcon
      exact hk ⟨hcon.1, hcon.2.1, hcon.2.2⟩
  · intro c2 hc2
    obtain ⟨_, b2, _⟩ := NewConfig_outcome x c2 w
    rw [b2, a2, hc2]
  · intro s
    exact ⟨BytesToAddress_length _, BytesToAddress_long _, BytesToAddress_short _⟩

end Claims

end Relayer
